import Mathlib

/-!
Verification of the ADNI metadata extractor (`adni_metadata_extractor.py`)
against its natural-language specification.

The Python source is shallowly embedded below: XML documents become a rose
tree (`Elem`), Python dicts become finite maps `String → Option Value`,
Python `float` values become `ℚ`, and fallible code (the broad
`try/except` in `parse_xml_metadata`) returns `Option`.
-/

/-- Boolean test that `needle` occurs at the start of `hay`
(model of Python string prefix matching used by substring search). -/
def hasPrefixAt : List Char → List Char → Bool
  | [], _ => true
  | _ :: _, [] => false
  | a :: as, b :: bs => (a == b) && hasPrefixAt as bs

/-- Boolean substring containment: `occursIn needle hay` models
Python's `needle in hay` on strings. -/
def occursIn (needle : List Char) : List Char → Bool
  | [] => needle.isEmpty
  | b :: bs => hasPrefixAt needle (b :: bs) || occursIn needle bs

/-- `strContains s sub` models Python `sub in s` (case-sensitive substring). -/
def strContains (s sub : String) : Bool :=
  occursIn sub.data s.data

/-- Model of `os.path.basename`: the part of the path after the last `/`. -/
def basename (p : String) : String :=
  ⟨(p.data.reverse.takeWhile (fun c => c ≠ '/')).reverse⟩

/-- Embedding of `ADNIDetailedMetadataExtractor.extract_scan_type`
(source lines 44-86): ordered case-sensitive substring tests on the
base name of the XML file path. -/
def extract_scan_type (xml_file_path : String) : String :=
  let filename := basename xml_file_path
  if strContains filename "FDG" then "PET_FDG"
  else if strContains filename "FBB" || strContains filename "Florbetaben" then "PET_FBB"
  else if strContains filename "AV45" || strContains filename "florbetapir" then "PET_AV45"
  else if strContains filename "Tau" || strContains filename "AV1451"
          || strContains filename "FLORTAUCIPIR" then "PET_TAU"
  else if strContains filename "PET" then "PET_OTHER"
  else if strContains filename "MPR" then
    (if strContains filename "FLAIR" then "MRI_FLAIR" else "MRI_MPRAGE")
  else if strContains filename "FLAIR" then "MRI_FLAIR"
  else if strContains filename "DTI" then "MRI_DTI"
  else if strContains filename "rsfMRI" || strContains filename "fMRI" then "MRI_fMRI"
  else if strContains filename "ASL" then "MRI_ASL"
  else if strContains filename "T2" then "MRI_T2"
  else "OTHER"

/-- The spec's 13-entry ordered predicate table (§4.1).  The first twelve
rows are (predicate, label) pairs; the thirteenth row "else → OTHER" is the
default of `firstMatchLabel`.  Written from the spec's words, to be compared
with `extract_scan_type`. -/
def specPredTable : List ((String → Bool) × String) :=
  [ (fun f => strContains f "FDG", "PET_FDG"),
    (fun f => strContains f "FBB" || strContains f "Florbetaben", "PET_FBB"),
    (fun f => strContains f "AV45" || strContains f "florbetapir", "PET_AV45"),
    (fun f => strContains f "Tau" || strContains f "AV1451"
              || strContains f "FLORTAUCIPIR", "PET_TAU"),
    (fun f => strContains f "PET", "PET_OTHER"),
    (fun f => strContains f "MPR" && strContains f "FLAIR", "MRI_FLAIR"),
    (fun f => strContains f "MPR", "MRI_MPRAGE"),
    (fun f => strContains f "FLAIR", "MRI_FLAIR"),
    (fun f => strContains f "DTI", "MRI_DTI"),
    (fun f => strContains f "rsfMRI" || strContains f "fMRI", "MRI_fMRI"),
    (fun f => strContains f "ASL", "MRI_ASL"),
    (fun f => strContains f "T2", "MRI_T2") ]

/-- First-match-wins evaluation of a predicate table; `"OTHER"` when no
predicate matches (spec table row 13). -/
def firstMatchLabel : List ((String → Bool) × String) → String → String
  | [], _ => "OTHER"
  | (p, l) :: rest, f => if p f then l else firstMatchLabel rest f

/-- C1: `extract_scan_type` equals the spec's 13-entry ordered predicate
table evaluated on the file's base name with first-match-wins semantics
(so the PET tests run before the MRI tests and an unmatched name yields
`OTHER`); moreover a base name containing both `"MPR"` and `"FLAIR"` is
never classified `MRI_MPRAGE`, and is classified `MRI_FLAIR` whenever no
PET predicate fires. -/
theorem classify_eq_spec_table (xml_file_path : String) :
    extract_scan_type xml_file_path
      = firstMatchLabel specPredTable (basename xml_file_path)
    ∧ (strContains (basename xml_file_path) "MPR" = true →
       strContains (basename xml_file_path) "FLAIR" = true →
       extract_scan_type xml_file_path ≠ "MRI_MPRAGE")
    ∧ (strContains (basename xml_file_path) "MPR" = true →
       strContains (basename xml_file_path) "FLAIR" = true →
       strContains (basename xml_file_path) "FDG" = false →
       strContains (basename xml_file_path) "FBB" = false →
       strContains (basename xml_file_path) "Florbetaben" = false →
       strContains (basename xml_file_path) "AV45" = false →
       strContains (basename xml_file_path) "florbetapir" = false →
       strContains (basename xml_file_path) "Tau" = false →
       strContains (basename xml_file_path) "AV1451" = false →
       strContains (basename xml_file_path) "FLORTAUCIPIR" = false →
       strContains (basename xml_file_path) "PET" = false →
       extract_scan_type xml_file_path = "MRI_FLAIR")
    ∧ ((∀ pr ∈ specPredTable, pr.1 (basename xml_file_path) = false) →
       extract_scan_type xml_file_path = "OTHER") := by
  have hrw : ∀ (q : String → Bool) (l : String) (rest : List ((String → Bool) × String))
      (f : String), firstMatchLabel ((q, l) :: rest) f
        = if q f then l else firstMatchLabel rest f := fun _ _ _ _ => rfl
  have hrw0 : ∀ f : String, firstMatchLabel [] f = "OTHER" := fun _ => rfl
  have heq : extract_scan_type xml_file_path
      = firstMatchLabel specPredTable (basename xml_file_path) := by
    show (if strContains (basename xml_file_path) "FDG" then "PET_FDG"
      else if strContains (basename xml_file_path) "FBB"
          || strContains (basename xml_file_path) "Florbetaben" then "PET_FBB"
      else if strContains (basename xml_file_path) "AV45"
          || strContains (basename xml_file_path) "florbetapir" then "PET_AV45"
      else if strContains (basename xml_file_path) "Tau"
          || strContains (basename xml_file_path) "AV1451"
          || strContains (basename xml_file_path) "FLORTAUCIPIR" then "PET_TAU"
      else if strContains (basename xml_file_path) "PET" then "PET_OTHER"
      else if strContains (basename xml_file_path) "MPR" then
        (if strContains (basename xml_file_path) "FLAIR" then "MRI_FLAIR" else "MRI_MPRAGE")
      else if strContains (basename xml_file_path) "FLAIR" then "MRI_FLAIR"
      else if strContains (basename xml_file_path) "DTI" then "MRI_DTI"
      else if strContains (basename xml_file_path) "rsfMRI"
          || strContains (basename xml_file_path) "fMRI" then "MRI_fMRI"
      else if strContains (basename xml_file_path) "ASL" then "MRI_ASL"
      else if strContains (basename xml_file_path) "T2" then "MRI_T2"
      else "OTHER") = firstMatchLabel specPredTable (basename xml_file_path)
    generalize basename xml_file_path = b
    simp only [specPredTable, hrw]
    cases h1 : strContains b "FDG"
    · cases h2 : (strContains b "FBB" || strContains b "Florbetaben")
      · cases h3 : (strContains b "AV45" || strContains b "florbetapir")
        · cases h4 : (strContains b "Tau" || strContains b "AV1451"
              || strContains b "FLORTAUCIPIR")
          · cases h5 : strContains b "PET"
            · cases hM : strContains b "MPR" <;> cases hF : strContains b "FLAIR"
              · cases h6 : strContains b "DTI"
                · cases h7 : (strContains b "rsfMRI" || strContains b "fMRI")
                  · cases h8 : strContains b "ASL"
                    · cases h9 : strContains b "T2" <;>
                        simp [h1, h2, h3, h4, h5, hM, hF, h6, h7, h8, h9, hrw0]
                    · simp [h1, h2, h3, h4, h5, hM, hF, h6, h7, h8]
                  · simp [h1, h2, h3, h4, h5, hM, hF, h6, h7]
                · simp [h1, h2, h3, h4, h5, hM, hF, h6]
              · simp [h1, h2, h3, h4, h5, hM, hF]
              · simp [h1, h2, h3, h4, h5, hM, hF]
              · simp [h1, h2, h3, h4, h5, hM, hF]
            · simp [h1, h2, h3, h4, h5]
          · simp [h1, h2, h3, h4]
        · simp [h1, h2, h3]
      · simp [h1, h2]
    · simp [h1]
  refine ⟨heq, ?_, ?_, ?_⟩
  · intro hM hF
    rw [heq]
    simp only [specPredTable, hrw, hrw0, hM, hF]
    split_ifs <;> simp_all
  · intro hM hF h1 h2 h3 h4 h5 h6 h7 h8 h9
    rw [heq]
    simp [specPredTable, hrw, hrw0, hM, hF, h1, h2, h3, h4, h5, h6, h7, h8, h9]
  · intro hall
    have htab : ∀ (t : List ((String → Bool) × String)) (f : String),
        (∀ pr ∈ t, pr.1 f = false) → firstMatchLabel t f = "OTHER" := by
      intro t
      induction t with
      | nil => intro f _; rfl
      | cons hd tl ih =>
        intro f hf
        have h1 := hf hd (List.mem_cons_self hd tl)
        have h2 : ∀ pr ∈ tl, pr.1 f = false :=
          fun pr hpr => hf pr (List.mem_cons_of_mem hd hpr)
        cases hd with
        | mk q l =>
          have h1q : q f = false := h1
          rw [hrw]
          simp only [h1q, Bool.false_eq_true, if_false]
          exact ih f h2
    rw [heq]
    exact htab specPredTable (basename xml_file_path) hall

/-- Witness for C1: concrete applications of `classify_eq_spec_table`. -/
theorem classify_eq_spec_table_witness :
    extract_scan_type "a/ADNI_MPR_FLAIR.xml" ≠ "MRI_MPRAGE"
      ∧ extract_scan_type "a/ADNI_MPR_FLAIR.xml" = "MRI_FLAIR"
      ∧ extract_scan_type "plain.xml" = "OTHER" :=
  ⟨(classify_eq_spec_table "a/ADNI_MPR_FLAIR.xml").2.1 (by decide) (by decide),
   (classify_eq_spec_table "a/ADNI_MPR_FLAIR.xml").2.2.1 (by decide) (by decide)
     (by decide) (by decide) (by decide) (by decide) (by decide) (by decide)
     (by decide) (by decide) (by decide),
   (classify_eq_spec_table "plain.xml").2.2.2 (by decide)⟩

/-- An ElementTree XML element: tag, attributes, text, children.
`text = none` models ElementTree's `elem.text is None`. -/
inductive Elem where
  | mk : String → List (String × String) → Option String → List Elem → Elem

/-- Tag of an element. -/
def Elem.tag : Elem → String
  | .mk t _ _ _ => t

/-- Attribute list of an element. -/
def Elem.attrs : Elem → List (String × String)
  | .mk _ a _ _ => a

/-- Text of an element (`None` when the element has no text). -/
def Elem.text : Elem → Option String
  | .mk _ _ x _ => x

/-- Children of an element. -/
def Elem.children : Elem → List Elem
  | .mk _ _ _ c => c

/-- `e.get k` models ElementTree's `elem.get(k)`: the value of attribute
`k`, or `None` when absent. -/
def Elem.get (e : Elem) (k : String) : Option String :=
  (e.attrs.find? (fun pr => pr.1 == k)).map (fun pr => pr.2)

mutual
/-- All proper descendants of an element in document (preorder) order;
models the node set walked by ElementTree's `.//` axis. -/
def descendants : Elem → List Elem
  | .mk _ _ _ cs => descendantsList cs

/-- Preorder traversal of a forest of elements. -/
def descendantsList : List Elem → List Elem
  | [] => []
  | c :: cs => c :: descendants c ++ descendantsList cs
end

/-- `findDesc root tag` models `root.find('.//tag')`: the first descendant
with the given tag in document order, or `None`. -/
def findDesc (root : Elem) (tag : String) : Option Elem :=
  (descendants root).find? (fun e => e.tag == tag)

/-- `findAllDesc root tag` models `root.findall('.//tag')`. -/
def findAllDesc (root : Elem) (tag : String) : List Elem :=
  (descendants root).filter (fun e => e.tag == tag)

/-- `findAllWithAttr root tag a` models `root.findall('.//tag[@a]')`:
all descendants with the given tag carrying attribute `a`. -/
def findAllWithAttr (root : Elem) (tag attrName : String) : List Elem :=
  (descendants root).filter (fun e => e.tag == tag && (e.get attrName).isSome)

/-- A Python dict with string keys, as used for the metadata record:
`none` models a missing key, `some v` a present entry. -/
inductive Value where
  | vStr : String → Value
  | vFloat : ℚ → Value
  | vInt : ℤ → Value
  | vNone : Value
deriving DecidableEq

/-- The metadata record: a Python dict from field name to value. -/
def Dict : Type := String → Option Value

/-- The empty dict `{}`. -/
def emptyDict : Dict := fun _ => none

/-- Python dict assignment `d[k] = v` (overwrites any previous entry). -/
def dictSet (d : Dict) (k : String) (v : Value) : Dict :=
  fun x => if x = k then some v else d x

theorem dictSet_same (d : Dict) (k : String) (v : Value) :
    dictSet d k v k = some v := by simp [dictSet]

theorem dictSet_ne (d : Dict) (k : String) (v : Value) (x : String) (h : x ≠ k) :
    dictSet d k v x = d x := by simp [dictSet, h]

/-- Digit-string value (used by the model of Python `float(...)`). -/
def digitsToNat (cs : List Char) : ℕ :=
  cs.foldl (fun a c => 10 * a + (c.toNat - 48)) 0

/-- Model of Python `float(s)` on plain decimal literals: optional
surrounding spaces, optional sign, digits with at most one decimal point
(`"72.5"`, `"7."`, `".5"`); returns `none` exactly when Python's `float`
would raise `ValueError` on such input (e.g. `"abc"`, `""`).  Exponent,
infinity and NaN forms, which the extractor's data never uses, are outside
the model. -/
def parseUnsignedFloat (cs : List Char) : Option ℚ :=
  let ip := cs.takeWhile (fun c => c ≠ '.')
  let rest := cs.dropWhile (fun c => c ≠ '.')
  match rest with
  | [] => if ip.all Char.isDigit && !ip.isEmpty then some (digitsToNat ip : ℚ) else none
  | _ :: fp =>
    if ip.all Char.isDigit && fp.all Char.isDigit && !(ip.isEmpty && fp.isEmpty) then
      some ((digitsToNat ip : ℚ) + (digitsToNat fp : ℚ) / (10 : ℚ) ^ fp.length)
    else none

/-- Sign/whitespace handling of Python `float(s)`; see `parseUnsignedFloat`. -/
def parseFloat (s : String) : Option ℚ :=
  let cs := ((s.data.dropWhile (fun c => c = ' ')).reverse.dropWhile
      (fun c => c = ' ')).reverse
  match cs with
  | '-' :: rest => (parseUnsignedFloat rest).map (fun q => -q)
  | '+' :: rest => parseUnsignedFloat rest
  | _ => parseUnsignedFloat cs

/-- The value stored for a present element's text: `elem.text` is a string
or Python `None`. -/
def textValue (e : Elem) : Value :=
  match e.text with
  | some t => Value.vStr t
  | none => Value.vNone

/-- `elem.text if elem is not None else 'N/A'` — the pattern used for the
string fields of `parse_xml_metadata`. -/
def elemOrNA (o : Option Elem) : Value :=
  match o with
  | some e => textValue e
  | none => Value.vStr "N/A"

/-- `float(elem.text) if elem is not None else None` — the pattern used at
source lines 122-128 for `age` and `weight_kg`.  An absent element yields
Python `None`; a present element whose text is `None` or not a number makes
`float` raise, aborting the whole record (`none` here). -/
def numOptField (o : Option Elem) : Option Value :=
  match o with
  | none => some Value.vNone
  | some e =>
    match e.text with
    | none => none
    | some t => (parseFloat t).map Value.vFloat

/-- Embedding of the APOE loop of `parse_xml_metadata` (source lines
130-137): iterate the `subjectInfo[@item]` matches in document order; an
item containing "APOE A1" assigns `apoe_a1`, otherwise an item containing
"APOE A2" assigns `apoe_a2`; assignment overwrites (last one wins). -/
def extractAPOE : List Elem → Dict → Dict
  | [], d => d
  | e :: rest, d =>
    let item := (e.get "item").getD ""
    if strContains item "APOE A1" then
      extractAPOE rest (dictSet d "apoe_a1" (textValue e))
    else if strContains item "APOE A2" then
      extractAPOE rest (dictSet d "apoe_a2" (textValue e))
    else
      extractAPOE rest d

/-- One fallible update step per element, sequenced over a list: the shape
shared by the clinical-score and imaging-protocol loops, whose bodies can
raise (abort the record) at `float(...)`. -/
def foldSteps (step : Dict → Elem → Option Dict) : List Elem → Dict → Option Dict
  | [], d => some d
  | e :: rest, d => (step d e).bind (foldSteps step rest)

/-- `assessment.find('.//assessmentScore[@attribute=attrVal]')`. -/
def findScore (a : Elem) (attrVal : String) : Option Elem :=
  (descendants a).find? (fun e =>
    e.tag == "assessmentScore" &&
      (match e.get "attribute" with
       | some v => v == attrVal
       | none => false))

/-- `float(score.text) if score is not None else None` (source lines
186-203): a missing score element stores Python `None`; a present one with
`None` or non-numeric text raises, failing the record. -/
def scoreField (d : Dict) (k : String) (o : Option Elem) : Option Dict :=
  match o with
  | none => some (dictSet d k Value.vNone)
  | some sc =>
    match sc.text with
    | none => none
    | some t => (parseFloat t).map (fun q => dictSet d k (Value.vFloat q))

/-- Body of the assessment loop of `_extract_clinical_scores` (source
lines 182-203): `if/elif` dispatch on substrings of the `name` attribute. -/
def clinicalStep (d : Dict) (a : Elem) : Option Dict :=
  let nm := (a.get "name").getD ""
  if strContains nm "MMSE" then scoreField d "mmse_score" (findScore a "MMSCORE")
  else if strContains nm "CDR" then scoreField d "cdr_score" (findScore a "CDGLOBAL")
  else if strContains nm "NPI" then scoreField d "npi_score" (findScore a "NPISCORE")
  else if strContains nm "FAQ" then scoreField d "faq_score" (findScore a "FAQTOTAL")
  else some d

/-- Embedding of `_extract_clinical_scores` applied to a given assessment
list (`root.findall('.//assessment')` in the source). -/
def extract_clinical_scores : List Elem → Dict → Option Dict :=
  foldSteps clinicalStep

/-- `root.findall('.//protocolTerm/protocol')`: `protocol` children of any
`protocolTerm` descendant, in document order. -/
def protocolTermProtocols (root : Elem) : List Elem :=
  ((descendants root).filter (fun e => e.tag == "protocolTerm")).flatMap
    (fun e => e.children.filter (fun c => c.tag == "protocol"))

/-- `root.findall('.//imagingProtocol//protocol')`: `protocol` descendants
of any `imagingProtocol` descendant. -/
def petProtocols (root : Elem) : List Elem :=
  ((descendants root).filter (fun e => e.tag == "imagingProtocol")).flatMap
    (fun e => (descendants e).filter (fun c => c.tag == "protocol"))

/-- `float(protocol.text) if protocol.text else None` (source lines
219-237): Python's truthiness makes both `None` and `""` store `None`
without raising; other non-numeric text raises, failing the record. -/
def floatTruthyField (d : Dict) (k : String) (e : Elem) : Option Dict :=
  match e.text with
  | none => some (dictSet d k Value.vNone)
  | some t =>
    if t = "" then some (dictSet d k Value.vNone)
    else (parseFloat t).map (fun q => dictSet d k (Value.vFloat q))

/-- Floor of a rational. -/
def ratFloor (q : ℚ) : ℤ := ⌊q⌋

/-- Python `int(x)` on a float value: truncation toward zero. -/
def truncQ (q : ℚ) : ℤ :=
  if 0 ≤ q then ratFloor q else -ratFloor (-q)

/-- `int(float(protocol.text)) if protocol.text else None` (source lines
247-254). -/
def intTruthyField (d : Dict) (k : String) (e : Elem) : Option Dict :=
  match e.text with
  | none => some (dictSet d k Value.vNone)
  | some t =>
    if t = "" then some (dictSet d k Value.vNone)
    else (parseFloat t).map (fun q => dictSet d k (Value.vInt (truncQ q)))

/-- Body of the MRI protocol loop of `_extract_imaging_protocol` (source
lines 216-237): exact-match dispatch on the `term` attribute. -/
def mriProtoStep (d : Dict) (e : Elem) : Option Dict :=
  let term := (e.get "term").getD ""
  if term = "TE" then floatTruthyField d "te_ms" e
  else if term = "TR" then floatTruthyField d "tr_ms" e
  else if term = "Slice Thickness" then floatTruthyField d "slice_thickness_mm" e
  else if term = "Flip Angle" then floatTruthyField d "flip_angle" e
  else if term = "Manufacturer" then some (dictSet d "manufacturer" (textValue e))
  else if term = "Mfg Model" then some (dictSet d "device_model" (textValue e))
  else if term = "Field Strength" then floatTruthyField d "field_strength_t" e
  else some d

/-- Body of the PET protocol loop of `_extract_imaging_protocol` (source
lines 241-262). -/
def petProtoStep (d : Dict) (e : Elem) : Option Dict :=
  let term := (e.get "term").getD ""
  if term = "Radiopharmaceutical" then some (dictSet d "radiopharmaceutical" (textValue e))
  else if term = "Number of Rows" then intTruthyField d "num_rows" e
  else if term = "Number of Columns" then intTruthyField d "num_columns" e
  else if term = "Number of Slices" then intTruthyField d "num_slices" e
  else if term = "Pixel Spacing X" then floatTruthyField d "pixel_spacing_x" e
  else if term = "Pixel Spacing Y" then floatTruthyField d "pixel_spacing_y" e
  else if term = "Reconstruction" then some (dictSet d "reconstruction_method" (textValue e))
  else some d

/-- Embedding of `_extract_imaging_protocol` (source lines 205-262). -/
def extract_imaging_protocol (root : Elem) (d : Dict) : Option Dict :=
  (foldSteps mriProtoStep (protocolTermProtocols root) d).bind
    (foldSteps petProtoStep (petProtocols root))

/-- String form of an element's text inside an f-string: Python renders
`None` as `"None"`. -/
def textStr (o : Option String) : String := o.getD "None"

/-- The `"process(program)"` strings collected by
`_extract_processing_info` (source lines 277-285). -/
def processingSteps (root : Elem) : List String :=
  (findAllDesc root "provenanceDetail").filterMap (fun detail =>
    match findDesc detail "process", findDesc detail "program" with
    | some pe, some ge => some (textStr pe.text ++ "(" ++ textStr ge.text ++ ")")
    | _, _ => none)

/-- Embedding of `_extract_processing_info` (source lines 264-288): never
raises. -/
def extract_processing_info (root : Elem) (d : Dict) : Dict :=
  let d1 :=
    match findDesc root "processedDataLabel" with
    | some e => dictSet d "processing_label" (textValue e)
    | none => d
  let steps := processingSteps root
  dictSet d1 "processing_steps"
    (if steps.isEmpty then Value.vStr "N/A"
     else Value.vStr (String.intercalate "; " steps))

/-- The record after the basic-information block of `parse_xml_metadata`
(source lines 105-155): identity, subject, genotype, visit and scan fields,
with the already converted `age` and `weight_kg` values passed in. -/
def basicFields (xml_file_path : String) (root : Elem) (vAge vW : Value) : Dict :=
  let d0 := dictSet emptyDict "filename" (Value.vStr (basename xml_file_path))
  let d1 := dictSet d0 "scan_type" (Value.vStr (extract_scan_type xml_file_path))
  let d2 := dictSet d1 "subject_id" (elemOrNA (findDesc root "subjectIdentifier"))
  let d3 := dictSet d2 "research_group" (elemOrNA (findDesc root "researchGroup"))
  let d4 := dictSet d3 "gender" (elemOrNA (findDesc root "subjectSex"))
  let d5 := dictSet d4 "age" vAge
  let d6 := dictSet d5 "weight_kg" vW
  let d7 := extractAPOE (findAllWithAttr root "subjectInfo" "item") d6
  let d8 := dictSet d7 "visit_type" (elemOrNA (findDesc root "visitIdentifier"))
  let d9 := dictSet d8 "modality" (elemOrNA (findDesc root "modality"))
  let d10 := dictSet d9 "scan_date" (elemOrNA (findDesc root "dateAcquired"))
  dictSet d10 "series_id" (elemOrNA (findDesc root "seriesIdentifier"))

/-- Embedding of `parse_xml_metadata` (source lines 88-170) on an already
parsed document tree: builds the record dict, or `none` when any step
raises (the broad `except` at line 168 returns `None`).  The fallible
steps, in source order: the `float` conversions of `subjectAge` and
`weightKg`, then the clinical-score and imaging-protocol loops. -/
def parse_xml_metadata (xml_file_path : String) (root : Elem) : Option Dict :=
  match numOptField (findDesc root "subjectAge") with
  | none => none
  | some vAge =>
    match numOptField (findDesc root "weightKg") with
    | none => none
    | some vW =>
      match extract_clinical_scores (findAllDesc root "assessment")
          (basicFields xml_file_path root vAge vW) with
      | none => none
      | some d12 =>
        match extract_imaging_protocol root d12 with
        | none => none
        | some d13 => some (extract_processing_info root d13)

/-- An XML file as seen by the processing loop: its path, and the parsed
document tree (`none` when `ET.parse` raises on the file). -/
structure XFile where
  path : String
  root : Option Elem

/-- `parse_xml_metadata` applied to a file: `ET.parse` failure or any
extraction error yields `None`. -/
def parseFile (f : XFile) : Option Dict :=
  f.root.bind (parse_xml_metadata f.path)

/-- Per-scan-type record buckets (`self.scan_type_data`). -/
def ScanData : Type := String → List Dict

/-- The empty bucket collection (`defaultdict(list)`). -/
def emptyScanData : ScanData := fun _ => []

/-- `type_counts[st] += 1` on a counter table. -/
def bumpCount (tc : String → ℕ) (st : String) : String → ℕ :=
  fun x => if x = st then tc st + 1 else tc x

/-- `self.scan_type_data[st].append(md)`. -/
def appendData (data : ScanData) (st : String) (md : Dict) : ScanData :=
  fun x => if x = st then data x ++ [md] else data x

/-- The overall run ceiling check of source lines 465-468:
`processed_count >= max_files_per_type * 10` (never hit when the limit is
`None`). -/
def ceilingHit : Option ℕ → ℕ → Bool
  | none, _ => false
  | some m, pc => decide (m * 10 ≤ pc)

/-- The per-type cap check of source lines 473-475:
`type_counts[scan_type] >= max_files_per_type`. -/
def capReached : Option ℕ → ℕ → Bool
  | none, _ => false
  | some m, c => decide (m ≤ c)

/-- The inner file loop of `process_metadata_folders` (source lines
463-485) over one folder's XML files, threading the per-folder
`type_counts`, the global `processed_count` and the bucket collection;
a ceiling hit models `break`, a cap hit models `continue`, and a falsy
parse result is skipped. -/
def processFolderFiles (cap : Option ℕ) :
    List XFile → (String → ℕ) → ℕ → ScanData → (String → ℕ) × ℕ × ScanData
  | [], tc, pc, data => (tc, pc, data)
  | f :: rest, tc, pc, data =>
    if ceilingHit cap pc then (tc, pc, data)
    else if capReached cap (tc (extract_scan_type f.path)) then
      processFolderFiles cap rest tc pc data
    else
      match parseFile f with
      | some md =>
        processFolderFiles cap rest (bumpCount tc (extract_scan_type f.path)) (pc + 1)
          (appendData data (extract_scan_type f.path) md)
      | none => processFolderFiles cap rest tc pc data

/-- The folder loop of `process_metadata_folders` (source lines 449-486):
`type_counts = defaultdict(int)` is re-created at the start of each folder,
while `processed_count` and the buckets persist across folders. -/
def processFoldersAux (cap : Option ℕ) : List (List XFile) → ℕ → ScanData → ℕ × ScanData
  | [], pc, data => (pc, data)
  | folder :: rest, pc, data =>
    let r := processFolderFiles cap folder (fun _ => 0) pc data
    processFoldersAux cap rest r.2.1 r.2.2

/-- Embedding of `process_metadata_folders` restricted to its processing
loop: the folders to process are given directly (folder discovery and
resolution are filesystem I/O outside the model); returns the final
`processed_count` and `self.scan_type_data`. -/
def process_metadata_folders (cap : Option ℕ) (folders : List (List XFile)) :
    ℕ × ScanData :=
  processFoldersAux cap folders 0 emptyScanData

/-- Python truthiness of `d.get(k)`: `None`, `0.0`, `0` and `""` (and a
missing key) are falsy. -/
def truthy : Option Value → Bool
  | none => false
  | some Value.vNone => false
  | some (Value.vStr s) => if s = "" then false else true
  | some (Value.vFloat q) => if q = 0 then false else true
  | some (Value.vInt n) => if n = 0 then false else true

/-- Numeric value of a dict entry when summed by the summary sheet (the
builder only ever stores numbers in the `age` field, so the string case
cannot occur there). -/
def qVal : Option Value → ℚ
  | some (Value.vFloat q) => q
  | some (Value.vInt n) => (n : ℚ)
  | _ => 0

/-- `ages = [d['age'] for d in data_list if d.get('age')]` (source line 533). -/
def summaryAges (dl : List Dict) : List ℚ :=
  (dl.filter (fun d => truthy (d "age"))).map (fun d => qVal (d "age"))

/-- Round-half-to-even of a rational, the rounding used by Python's
`round` and `format`. -/
def roundHE (q : ℚ) : ℤ :=
  let f := ratFloor q
  let r := q - (f : ℚ)
  if r < 1 / 2 then f
  else if 1 / 2 < r then f + 1
  else if f % 2 = 0 then f else f + 1

/-- Python `round(x, 1)`. -/
def roundQ1 (q : ℚ) : ℚ := (roundHE (q * 10) : ℚ) / 10

/-- Decimal digits of a natural number (fuel-based helper). -/
def natToStrAux : ℕ → ℕ → List Char
  | 0, _ => []
  | fuel + 1, n =>
    if n < 10 then [Char.ofNat (48 + n)]
    else natToStrAux fuel (n / 10) ++ [Char.ofNat (48 + n % 10)]

/-- Decimal string of a natural number. -/
def natToStr (n : ℕ) : String := ⟨natToStrAux (n + 1) n⟩

/-- Python `f"{x:.1f}"`: the value rounded (half-to-even) to one decimal
place, written with exactly one digit after the point. -/
def fmt1 (q : ℚ) : String :=
  let n := roundHE (q * 10)
  let a := n.natAbs
  let s := natToStr (a / 10) ++ "." ++ natToStr (a % 10)
  if n < 0 then "-" ++ s else s

/-- `avg_age` of source lines 532-534: `round(sum(ages)/len(ages), 1) if
ages else 'N/A'`. -/
def avgAgeVal (dl : List Dict) : Value :=
  let ages := summaryAges dl
  if ages.isEmpty then Value.vStr "N/A"
  else Value.vFloat (roundQ1 (ages.sum / (ages.length : ℚ)))

/-- `male_ratio` of source lines 537-540. -/
def maleRatioVal (dl : List Dict) : Value :=
  if dl.isEmpty then Value.vStr "N/A"
  else
    Value.vStr
      (fmt1 (((dl.countP (fun d => decide (d "gender" = some (Value.vStr "M")))) : ℚ)
          / (dl.length : ℚ) * 100) ++ "%")

/-- One row of the `scan_type_summary` sheet (source lines 529-553). -/
structure SummaryRow where
  scan_type : String
  data_count : ℕ
  average_age : Value
  male_ratio : Value
  ad_patients : ℕ
  mci_patients : ℕ
  cn_patients : ℕ
deriving DecidableEq

/-- Embedding of the summary-row computation of `create_detailed_excel`
(source lines 530-553) for one scan-type bucket. -/
def summaryRow (scanType : String) (dl : List Dict) : SummaryRow :=
  { scan_type := scanType
    data_count := dl.length
    average_age := avgAgeVal dl
    male_ratio := maleRatioVal dl
    ad_patients := dl.countP (fun d => decide (d "research_group" = some (Value.vStr "AD")))
    mci_patients := dl.countP (fun d => decide (d "research_group" = some (Value.vStr "MCI")))
    cn_patients := dl.countP (fun d => decide (d "research_group" = some (Value.vStr "CN"))) }

/-- A dict literal: `dictOfList [(k₁,v₁),…]` with the first entry outermost. -/
def dictOfList : List (String × Value) → Dict
  | [] => emptyDict
  | (k, v) :: rest => dictSet (dictOfList rest) k v

/-- A PET_FDG record with age 60, gender M, research group AD. -/
def rec60 : Dict :=
  dictOfList [("age", Value.vFloat 60), ("gender", Value.vStr "M"),
    ("research_group", Value.vStr "AD")]

/-- A PET_FDG record with age 70, gender M, research group AD. -/
def rec70 : Dict :=
  dictOfList [("age", Value.vFloat 70), ("gender", Value.vStr "M"),
    ("research_group", Value.vStr "AD")]

/-- A PET_FDG record with age 80, gender F, research group CN. -/
def rec80 : Dict :=
  dictOfList [("age", Value.vFloat 80), ("gender", Value.vStr "F"),
    ("research_group", Value.vStr "CN")]

/-- A record with no age entry at all. -/
def recNoAge : Dict := dictOfList [("gender", Value.vStr "F")]

/-- C5: for a bucket of 3 PET_FDG records with ages [60, 70, 80] and
genders [M, M, F], the summary row reports `data_count = 3`,
`average_age = 70.0`, `male_ratio = "66.7%"`, and the AD/MCI/CN columns
count the records whose `research_group` is "AD"/"MCI"/"CN" (here 2/0/1);
a bucket whose records carry no ages reports `average_age = "N/A"`. -/
theorem summary_row_scenario :
    (summaryRow "PET_FDG" [rec60, rec70, rec80]).data_count = 3
    ∧ (summaryRow "PET_FDG" [rec60, rec70, rec80]).average_age = Value.vFloat 70
    ∧ (summaryRow "PET_FDG" [rec60, rec70, rec80]).male_ratio = Value.vStr "66.7%"
    ∧ (summaryRow "PET_FDG" [rec60, rec70, rec80]).ad_patients = 2
    ∧ (summaryRow "PET_FDG" [rec60, rec70, rec80]).mci_patients = 0
    ∧ (summaryRow "PET_FDG" [rec60, rec70, rec80]).cn_patients = 1
    ∧ (summaryRow "PET_FDG" [recNoAge]).average_age = Value.vStr "N/A"
    ∧ (summaryRow "PET_FDG" [recNoAge]).data_count = 1 := by
  have hages : summaryAges [rec60, rec70, rec80] = [60, 70, 80] := by
    norm_num [summaryAges, rec60, rec70, rec80, dictOfList, dictSet, emptyDict,
      truthy, qVal, List.filter]
  refine ⟨rfl, ?_, ?_, by decide, by decide, by decide, ?_, rfl⟩
  · show avgAgeVal [rec60, rec70, rec80] = Value.vFloat 70
    rw [avgAgeVal, hages]
    have hsum : (([60, 70, 80] : List ℚ).sum / (([60, 70, 80] : List ℚ).length : ℚ)) = 70 := by
      norm_num
    rw [if_neg (by simp), hsum]
    have : roundQ1 70 = 70 := by
      rw [roundQ1]
      norm_num [roundHE, ratFloor]
    rw [this]
  · show maleRatioVal [rec60, rec70, rec80] = Value.vStr "66.7%"
    rw [maleRatioVal, if_neg (by simp)]
    have hcount : ([rec60, rec70, rec80].countP
        (fun d => decide (d "gender" = some (Value.vStr "M")))) = 2 := by decide
    rw [hcount]
    have hq : ((2 : ℕ) : ℚ) / (([rec60, rec70, rec80].length : ℕ) : ℚ) * 100
        = (2 : ℚ) / 3 * 100 := by norm_num
    rw [hq]
    have hfmt : fmt1 ((2 : ℚ) / 3 * 100) = "66.7" := by
      rw [fmt1]
      have h2 : roundHE ((2 : ℚ) / 3 * 100 * 10) = 667 := by
        norm_num [roundHE, ratFloor]
      rw [h2]
      rfl
    rw [hfmt]
    rfl
  · show avgAgeVal [recNoAge] = Value.vStr "N/A"
    rw [avgAgeVal]
    have h : summaryAges [recNoAge] = [] := by decide
    rw [h]
    rfl

/-- C8: the summary average skips records whose `age` is falsy: removing a
record with age `0.0` from anywhere in a bucket changes `data_count` by one
but never `average_age`; and a bucket all of whose records have age `0.0`,
no age entry, or a `None` age reports `average_age = "N/A"` while its
`data_count` still counts every record. -/
theorem zero_age_excluded_from_average (T : String) :
    (∀ (l1 l2 : List Dict) (d : Dict), d "age" = some (Value.vFloat 0) →
      (summaryRow T (l1 ++ d :: l2)).average_age = (summaryRow T (l1 ++ l2)).average_age
      ∧ (summaryRow T (l1 ++ d :: l2)).data_count
          = (summaryRow T (l1 ++ l2)).data_count + 1)
    ∧ (∀ rs : List Dict,
      (∀ r ∈ rs, r "age" = some (Value.vFloat 0) ∨ r "age" = none
          ∨ r "age" = some Value.vNone) →
      (summaryRow T rs).average_age = Value.vStr "N/A"
      ∧ (summaryRow T rs).data_count = rs.length) := by
  constructor
  · intro l1 l2 d h
    have ht : truthy (d "age") = false := by rw [h]; simp [truthy]
    have hs : summaryAges (l1 ++ d :: l2) = summaryAges (l1 ++ l2) := by
      rw [summaryAges, summaryAges, List.filter_append, List.filter_append,
        List.filter_cons_of_neg (by simp [ht])]
    constructor
    · show avgAgeVal (l1 ++ d :: l2) = avgAgeVal (l1 ++ l2)
      rw [avgAgeVal, avgAgeVal, hs]
    · show (l1 ++ d :: l2).length = (l1 ++ l2).length + 1
      simp
      omega
  · intro rs hrs
    have hs : summaryAges rs = [] := by
      induction rs with
      | nil => rfl
      | cons r rest ih =>
        have hr := hrs r (List.mem_cons_self r rest)
        have ht : truthy (r "age") = false := by
          rcases hr with h | h | h <;> rw [h] <;> simp [truthy]
        have := ih (fun x hx => hrs x (List.mem_cons_of_mem r hx))
        rw [summaryAges] at this ⊢
        rw [List.filter_cons_of_neg (by simp [ht])]
        exact this
    exact ⟨by show avgAgeVal rs = Value.vStr "N/A"; rw [avgAgeVal, hs]; rfl, rfl⟩

/-- A record whose age entry is the float `0.0`. -/
def dAge0 : Dict := dictOfList [("age", Value.vFloat 0)]

/-- Witness for C8: concrete application of `zero_age_excluded_from_average`. -/
theorem zero_age_excluded_from_average_witness :
    ((summaryRow "PET_FDG" ([] ++ dAge0 :: [])).average_age
        = (summaryRow "PET_FDG" ([] ++ [])).average_age
      ∧ (summaryRow "PET_FDG" ([] ++ dAge0 :: [])).data_count
          = (summaryRow "PET_FDG" ([] ++ [])).data_count + 1)
    ∧ ((summaryRow "PET_FDG" [dAge0]).average_age = Value.vStr "N/A"
      ∧ (summaryRow "PET_FDG" [dAge0]).data_count = [dAge0].length) :=
  ⟨(zero_age_excluded_from_average "PET_FDG").1 [] [] dAge0 rfl,
   (zero_age_excluded_from_average "PET_FDG").2 [dAge0]
     (by intro r hr; rw [List.mem_singleton] at hr; subst hr; left; rfl)⟩

theorem extractAPOE_pres (k : String) (h1 : k ≠ "apoe_a1") (h2 : k ≠ "apoe_a2") :
    ∀ (l : List Elem) (d : Dict), extractAPOE l d k = d k := by
  intro l
  induction l with
  | nil => intro d; rfl
  | cons e rest ih =>
    intro d
    rw [extractAPOE]
    split_ifs with hA1 hA2
    · rw [ih]; exact dictSet_ne _ _ _ _ h1
    · rw [ih]; exact dictSet_ne _ _ _ _ h2
    · exact ih d

theorem foldSteps_pres (step : Dict → Elem → Option Dict) (k : String)
    (hstep : ∀ d e d', step d e = some d' → d' k = d k) :
    ∀ (l : List Elem) (d d' : Dict), foldSteps step l d = some d' → d' k = d k := by
  intro l
  induction l with
  | nil =>
    intro d d' h
    rw [foldSteps] at h
    cases h
    rfl
  | cons e rest ih =>
    intro d d' h
    rw [foldSteps] at h
    cases hse : step d e with
    | none => rw [hse] at h; cases h
    | some dm =>
      rw [hse, Option.some_bind] at h
      rw [ih dm d' h, hstep d e dm hse]

theorem scoreField_pres (d : Dict) (key : String) (o : Option Elem) (d' : Dict)
    (h : scoreField d key o = some d') (k : String) (hk : k ≠ key) : d' k = d k := by
  unfold scoreField at h
  split at h
  · cases h; exact dictSet_ne _ _ _ _ hk
  · split at h
    · simp at h
    · rw [Option.map_eq_some'] at h
      obtain ⟨q, _, hd⟩ := h
      subst hd
      exact dictSet_ne _ _ _ _ hk

theorem clinicalStep_pres (k : String) (h1 : k ≠ "mmse_score") (h2 : k ≠ "cdr_score")
    (h3 : k ≠ "npi_score") (h4 : k ≠ "faq_score") :
    ∀ (d : Dict) (e : Elem) (d' : Dict), clinicalStep d e = some d' → d' k = d k := by
  intro d e d' h
  rw [clinicalStep] at h
  split_ifs at h
  · exact scoreField_pres _ _ _ _ h k h1
  · exact scoreField_pres _ _ _ _ h k h2
  · exact scoreField_pres _ _ _ _ h k h3
  · exact scoreField_pres _ _ _ _ h k h4
  · cases h; rfl

theorem floatTruthyField_pres (d : Dict) (key : String) (e : Elem) (d' : Dict)
    (h : floatTruthyField d key e = some d') (k : String) (hk : k ≠ key) : d' k = d k := by
  unfold floatTruthyField at h
  split at h
  · cases h; exact dictSet_ne _ _ _ _ hk
  · split_ifs at h
    · cases h; exact dictSet_ne _ _ _ _ hk
    · rw [Option.map_eq_some'] at h
      obtain ⟨q, _, hd⟩ := h
      subst hd
      exact dictSet_ne _ _ _ _ hk

theorem intTruthyField_pres (d : Dict) (key : String) (e : Elem) (d' : Dict)
    (h : intTruthyField d key e = some d') (k : String) (hk : k ≠ key) : d' k = d k := by
  unfold intTruthyField at h
  split at h
  · cases h; exact dictSet_ne _ _ _ _ hk
  · split_ifs at h
    · cases h; exact dictSet_ne _ _ _ _ hk
    · rw [Option.map_eq_some'] at h
      obtain ⟨q, _, hd⟩ := h
      subst hd
      exact dictSet_ne _ _ _ _ hk

theorem mriProtoStep_pres (k : String) (h1 : k ≠ "te_ms") (h2 : k ≠ "tr_ms")
    (h3 : k ≠ "slice_thickness_mm") (h4 : k ≠ "flip_angle") (h5 : k ≠ "manufacturer")
    (h6 : k ≠ "device_model") (h7 : k ≠ "field_strength_t") :
    ∀ (d : Dict) (e : Elem) (d' : Dict), mriProtoStep d e = some d' → d' k = d k := by
  intro d e d' h
  rw [mriProtoStep] at h
  split_ifs at h
  · exact floatTruthyField_pres _ _ _ _ h k h1
  · exact floatTruthyField_pres _ _ _ _ h k h2
  · exact floatTruthyField_pres _ _ _ _ h k h3
  · exact floatTruthyField_pres _ _ _ _ h k h4
  · cases h; exact dictSet_ne _ _ _ _ h5
  · cases h; exact dictSet_ne _ _ _ _ h6
  · exact floatTruthyField_pres _ _ _ _ h k h7
  · cases h; rfl

theorem petProtoStep_pres (k : String) (h1 : k ≠ "radiopharmaceutical")
    (h2 : k ≠ "num_rows") (h3 : k ≠ "num_columns") (h4 : k ≠ "num_slices")
    (h5 : k ≠ "pixel_spacing_x") (h6 : k ≠ "pixel_spacing_y")
    (h7 : k ≠ "reconstruction_method") :
    ∀ (d : Dict) (e : Elem) (d' : Dict), petProtoStep d e = some d' → d' k = d k := by
  intro d e d' h
  rw [petProtoStep] at h
  split_ifs at h
  · cases h; exact dictSet_ne _ _ _ _ h1
  · exact intTruthyField_pres _ _ _ _ h k h2
  · exact intTruthyField_pres _ _ _ _ h k h3
  · exact intTruthyField_pres _ _ _ _ h k h4
  · exact floatTruthyField_pres _ _ _ _ h k h5
  · exact floatTruthyField_pres _ _ _ _ h k h6
  · cases h; exact dictSet_ne _ _ _ _ h7
  · cases h; rfl

theorem extract_processing_info_pres (root : Elem) (d : Dict) (k : String)
    (h1 : k ≠ "processing_label") (h2 : k ≠ "processing_steps") :
    extract_processing_info root d k = d k := by
  rw [extract_processing_info]
  cases findDesc root "processedDataLabel" with
  | none => exact dictSet_ne _ _ _ _ h2
  | some e => rw [dictSet_ne _ _ _ _ h2]; exact dictSet_ne _ _ _ _ h1

theorem extract_clinical_scores_pres (k : String) (h1 : k ≠ "mmse_score")
    (h2 : k ≠ "cdr_score") (h3 : k ≠ "npi_score") (h4 : k ≠ "faq_score")
    (l : List Elem) (d d' : Dict) (h : extract_clinical_scores l d = some d') :
    d' k = d k :=
  foldSteps_pres clinicalStep k (clinicalStep_pres k h1 h2 h3 h4) l d d' h

theorem extract_imaging_protocol_pres (k : String) (h1 : k ≠ "te_ms") (h2 : k ≠ "tr_ms")
    (h3 : k ≠ "slice_thickness_mm") (h4 : k ≠ "flip_angle") (h5 : k ≠ "manufacturer")
    (h6 : k ≠ "device_model") (h7 : k ≠ "field_strength_t")
    (h8 : k ≠ "radiopharmaceutical") (h9 : k ≠ "num_rows") (h10 : k ≠ "num_columns")
    (h11 : k ≠ "num_slices") (h12 : k ≠ "pixel_spacing_x") (h13 : k ≠ "pixel_spacing_y")
    (h14 : k ≠ "reconstruction_method")
    (root : Elem) (d d' : Dict) (h : extract_imaging_protocol root d = some d') :
    d' k = d k := by
  unfold extract_imaging_protocol at h
  cases hm : foldSteps mriProtoStep (protocolTermProtocols root) d with
  | none => rw [hm] at h; simp at h
  | some dm =>
    rw [hm, Option.some_bind] at h
    rw [foldSteps_pres petProtoStep k
        (petProtoStep_pres k h8 h9 h10 h11 h12 h13 h14) _ _ _ h,
      foldSteps_pres mriProtoStep k
        (mriProtoStep_pres k h1 h2 h3 h4 h5 h6 h7) _ _ _ hm]

theorem basicFields_age (p : String) (root : Elem) (vAge vW : Value) :
    basicFields p root vAge vW "age" = some vAge := by
  simp only [basicFields]
  rw [dictSet_ne _ _ _ _ (by decide), dictSet_ne _ _ _ _ (by decide),
    dictSet_ne _ _ _ _ (by decide), dictSet_ne _ _ _ _ (by decide),
    extractAPOE_pres _ (by decide) (by decide), dictSet_ne _ _ _ _ (by decide)]
  exact dictSet_same _ _ _

theorem basicFields_weight (p : String) (root : Elem) (vAge vW : Value) :
    basicFields p root vAge vW "weight_kg" = some vW := by
  simp only [basicFields]
  rw [dictSet_ne _ _ _ _ (by decide), dictSet_ne _ _ _ _ (by decide),
    dictSet_ne _ _ _ _ (by decide), dictSet_ne _ _ _ _ (by decide),
    extractAPOE_pres _ (by decide) (by decide)]
  exact dictSet_same _ _ _

/-- Shape of any successful `parse_xml_metadata` run: the four fallible
stages all succeeded, and the result is the processing-info stage applied
to the protocol stage's output. -/
theorem parse_structure (p : String) (root : Elem) (d' : Dict)
    (hParse : parse_xml_metadata p root = some d') :
    ∃ vAge vW d12 d13,
      numOptField (findDesc root "subjectAge") = some vAge
      ∧ numOptField (findDesc root "weightKg") = some vW
      ∧ extract_clinical_scores (findAllDesc root "assessment")
          (basicFields p root vAge vW) = some d12
      ∧ extract_imaging_protocol root d12 = some d13
      ∧ d' = extract_processing_info root d13 := by
  unfold parse_xml_metadata at hParse
  split at hParse
  · exact absurd hParse (by simp)
  next vAge hA =>
    split at hParse
    · exact absurd hParse (by simp)
    next vW hW =>
      split at hParse
      · exact absurd hParse (by simp)
      next d12 hC =>
        split at hParse
        · exact absurd hParse (by simp)
        next d13 hP =>
          injection hParse with hinj
          exact ⟨vAge, vW, d12, d13, hA, hW, hC, hP, hinj.symm⟩

/-- Converse of `parse_structure`: successful stages assemble into a
successful record build. -/
theorem parse_structure_mk (p : String) (root : Elem) (vAge vW : Value)
    (d12 d13 : Dict)
    (hA : numOptField (findDesc root "subjectAge") = some vAge)
    (hW : numOptField (findDesc root "weightKg") = some vW)
    (hC : extract_clinical_scores (findAllDesc root "assessment")
        (basicFields p root vAge vW) = some d12)
    (hP : extract_imaging_protocol root d12 = some d13) :
    parse_xml_metadata p root = some (extract_processing_info root d13) := by
  unfold parse_xml_metadata
  simp only [hA, hW, hC, hP]

/-- `<subjectAge>72.5</subjectAge>`. -/
def ageEl725 : Elem := Elem.mk "subjectAge" [] (some "72.5") []

/-- A document whose only content is `subjectAge` = "72.5". -/
def docAge725 : Elem := Elem.mk "idaxml" [] none [ageEl725]

/-- `<subjectAge>abc</subjectAge>`. -/
def ageElAbc : Elem := Elem.mk "subjectAge" [] (some "abc") []

/-- A document whose only content is `subjectAge` = "abc". -/
def docAgeAbc : Elem := Elem.mk "idaxml" [] none [ageElAbc]

/-- A document with none of the target elements. -/
def docEmpty : Elem := Elem.mk "idaxml" [] none []

/-- A file whose record build fails (`subjectAge` = "abc"). -/
def fileAbc : XFile := ⟨"bad_FDG.xml", some docAgeAbc⟩

/-- A file whose record build succeeds. -/
def fileGood : XFile := ⟨"good_FDG.xml", some docEmpty⟩

theorem parseFloat_725 : parseFloat "72.5" = some (72.5 : ℚ) := by
  rw [show parseFloat "72.5"
      = some ((digitsToNat ['7', '2'] : ℚ) + (digitsToNat ['5'] : ℚ) / (10 : ℚ) ^ 1)
      from rfl]
  norm_num [digitsToNat, show ('7').toNat = 55 from rfl, show ('2').toNat = 50 from rfl,
    show ('5').toNat = 53 from rfl]

/-- C2: per-field tolerance of structural absence versus record-level
failure on numeric coercion.  An absent `subjectAge`/`weightKg` element
yields a record whose `age`/`weight_kg` field is the `None` marker (for
every document whose build succeeds); a present `subjectAge` whose text is
not parseable as a number makes the whole build return `None`; concretely,
`subjectAge` = "72.5" builds a record with age 72.5 while `subjectAge` =
"abc" fails that record — and only that record: the processing loop skips
the failed file and still accumulates the next one. -/
theorem record_absence_and_parse_failure :
    (∀ (p : String) (root : Elem) (d' : Dict),
      findDesc root "subjectAge" = none →
      parse_xml_metadata p root = some d' → d' "age" = some Value.vNone)
    ∧ (∀ (p : String) (root : Elem) (d' : Dict),
      findDesc root "weightKg" = none →
      parse_xml_metadata p root = some d' → d' "weight_kg" = some Value.vNone)
    ∧ (∀ (p : String) (root : Elem) (e : Elem) (t : String),
      findDesc root "subjectAge" = some e → e.text = some t → parseFloat t = none →
      parse_xml_metadata p root = none)
    ∧ (parse_xml_metadata "a.xml" docAge725).map (fun d => d "age")
        = some (some (Value.vFloat (72.5 : ℚ)))
    ∧ parse_xml_metadata "a.xml" docAgeAbc = none
    ∧ (processFolderFiles none [fileAbc, fileGood] (fun _ => 0) 0 emptyScanData).2.1 = 1
    ∧ ((processFolderFiles none [fileAbc, fileGood] (fun _ => 0) 0
        emptyScanData).2.2 "PET_FDG").length = 1 := by
  refine ⟨?_, ?_, ?_, ?_, ?_, ?_, ?_⟩
  · intro p root d' hAbs hParse
    obtain ⟨vAge, vW, d12, d13, hA, hW, hC, hP, rfl⟩ := parse_structure p root d' hParse
    rw [hAbs] at hA
    rw [show numOptField none = some Value.vNone from rfl] at hA
    injection hA with hA
    subst hA
    rw [extract_processing_info_pres _ _ _ (by decide) (by decide),
      extract_imaging_protocol_pres _ (by decide) (by decide) (by decide) (by decide)
        (by decide) (by decide) (by decide) (by decide) (by decide) (by decide)
        (by decide) (by decide) (by decide) (by decide) _ _ _ hP,
      extract_clinical_scores_pres _ (by decide) (by decide) (by decide) (by decide)
        _ _ _ hC]
    exact basicFields_age _ _ _ _
  · intro p root d' hAbs hParse
    obtain ⟨vAge, vW, d12, d13, hA, hW, hC, hP, rfl⟩ := parse_structure p root d' hParse
    rw [hAbs] at hW
    rw [show numOptField none = some Value.vNone from rfl] at hW
    injection hW with hW
    subst hW
    rw [extract_processing_info_pres _ _ _ (by decide) (by decide),
      extract_imaging_protocol_pres _ (by decide) (by decide) (by decide) (by decide)
        (by decide) (by decide) (by decide) (by decide) (by decide) (by decide)
        (by decide) (by decide) (by decide) (by decide) _ _ _ hP,
      extract_clinical_scores_pres _ (by decide) (by decide) (by decide) (by decide)
        _ _ _ hC]
    exact basicFields_weight _ _ _ _
  · intro p root e t hFind hText hPf
    unfold parse_xml_metadata
    have : numOptField (findDesc root "subjectAge") = none := by
      rw [hFind]
      show (match e.text with
        | none => none
        | some t => Option.map Value.vFloat (parseFloat t)) = none
      rw [hText]
      show Option.map Value.vFloat (parseFloat t) = none
      rw [hPf]
      rfl
    simp only [this]
  · have hA : numOptField (findDesc docAge725 "subjectAge")
        = some (Value.vFloat (72.5 : ℚ)) := by
      rw [show findDesc docAge725 "subjectAge" = some ageEl725 from rfl]
      show (parseFloat "72.5").map Value.vFloat = some (Value.vFloat (72.5 : ℚ))
      rw [parseFloat_725]
      rfl
    have hparse := parse_structure_mk "a.xml" docAge725 (Value.vFloat (72.5 : ℚ))
      Value.vNone (basicFields "a.xml" docAge725 (Value.vFloat (72.5 : ℚ)) Value.vNone)
      (basicFields "a.xml" docAge725 (Value.vFloat (72.5 : ℚ)) Value.vNone)
      hA rfl rfl rfl
    rw [hparse]
    show some ((extract_processing_info docAge725 (basicFields "a.xml" docAge725
        (Value.vFloat (72.5 : ℚ)) Value.vNone)) "age")
      = some (some (Value.vFloat (72.5 : ℚ)))
    rw [extract_processing_info_pres _ _ _ (by decide) (by decide), basicFields_age]
  · unfold parse_xml_metadata
    have : numOptField (findDesc docAgeAbc "subjectAge") = none := rfl
    simp only [this]
  · decide
  · decide

/-- Witness for C2: concrete applications of
`record_absence_and_parse_failure`. -/
theorem record_absence_and_parse_failure_witness :
    parse_xml_metadata "b.xml" docAgeAbc = none
      ∧ (parse_xml_metadata "w.xml" docEmpty).map (fun d => d "age")
          = some (some Value.vNone) := by
  constructor
  · exact record_absence_and_parse_failure.2.2.1 "b.xml" docAgeAbc ageElAbc "abc"
      rfl rfl rfl
  · have h : parse_xml_metadata "w.xml" docEmpty
        = some (extract_processing_info docEmpty
            (basicFields "w.xml" docEmpty Value.vNone Value.vNone)) := rfl
    rw [h]
    show some ((extract_processing_info docEmpty
        (basicFields "w.xml" docEmpty Value.vNone Value.vNone)) "age")
      = some (some Value.vNone)
    exact congrArg some (record_absence_and_parse_failure.1 "w.xml" docEmpty
      (extract_processing_info docEmpty
        (basicFields "w.xml" docEmpty Value.vNone Value.vNone)) rfl h)

theorem basicFields_subject_id (p : String) (root : Elem) (vAge vW : Value) :
    basicFields p root vAge vW "subject_id"
      = some (elemOrNA (findDesc root "subjectIdentifier")) := by
  simp only [basicFields]
  rw [dictSet_ne _ _ _ _ (by decide), dictSet_ne _ _ _ _ (by decide),
    dictSet_ne _ _ _ _ (by decide), dictSet_ne _ _ _ _ (by decide),
    extractAPOE_pres _ (by decide) (by decide), dictSet_ne _ _ _ _ (by decide),
    dictSet_ne _ _ _ _ (by decide), dictSet_ne _ _ _ _ (by decide),
    dictSet_ne _ _ _ _ (by decide)]
  exact dictSet_same _ _ _

theorem basicFields_research_group (p : String) (root : Elem) (vAge vW : Value) :
    basicFields p root vAge vW "research_group"
      = some (elemOrNA (findDesc root "researchGroup")) := by
  simp only [basicFields]
  rw [dictSet_ne _ _ _ _ (by decide), dictSet_ne _ _ _ _ (by decide),
    dictSet_ne _ _ _ _ (by decide), dictSet_ne _ _ _ _ (by decide),
    extractAPOE_pres _ (by decide) (by decide), dictSet_ne _ _ _ _ (by decide),
    dictSet_ne _ _ _ _ (by decide), dictSet_ne _ _ _ _ (by decide)]
  exact dictSet_same _ _ _

theorem basicFields_gender (p : String) (root : Elem) (vAge vW : Value) :
    basicFields p root vAge vW "gender"
      = some (elemOrNA (findDesc root "subjectSex")) := by
  simp only [basicFields]
  rw [dictSet_ne _ _ _ _ (by decide), dictSet_ne _ _ _ _ (by decide),
    dictSet_ne _ _ _ _ (by decide), dictSet_ne _ _ _ _ (by decide),
    extractAPOE_pres _ (by decide) (by decide), dictSet_ne _ _ _ _ (by decide),
    dictSet_ne _ _ _ _ (by decide)]
  exact dictSet_same _ _ _

theorem basicFields_visit_type (p : String) (root : Elem) (vAge vW : Value) :
    basicFields p root vAge vW "visit_type"
      = some (elemOrNA (findDesc root "visitIdentifier")) := by
  simp only [basicFields]
  rw [dictSet_ne _ _ _ _ (by decide), dictSet_ne _ _ _ _ (by decide),
    dictSet_ne _ _ _ _ (by decide)]
  exact dictSet_same _ _ _

theorem basicFields_modality (p : String) (root : Elem) (vAge vW : Value) :
    basicFields p root vAge vW "modality"
      = some (elemOrNA (findDesc root "modality")) := by
  simp only [basicFields]
  rw [dictSet_ne _ _ _ _ (by decide), dictSet_ne _ _ _ _ (by decide)]
  exact dictSet_same _ _ _

theorem basicFields_scan_date (p : String) (root : Elem) (vAge vW : Value) :
    basicFields p root vAge vW "scan_date"
      = some (elemOrNA (findDesc root "dateAcquired")) := by
  simp only [basicFields]
  rw [dictSet_ne _ _ _ _ (by decide)]
  exact dictSet_same _ _ _

theorem basicFields_series_id (p : String) (root : Elem) (vAge vW : Value) :
    basicFields p root vAge vW "series_id"
      = some (elemOrNA (findDesc root "seriesIdentifier")) := by
  simp only [basicFields]
  exact dictSet_same _ _ _

theorem basicFields_other (p : String) (root : Elem) (vAge vW : Value) (k : String)
    (h1 : k ≠ "filename") (h2 : k ≠ "scan_type") (h3 : k ≠ "subject_id")
    (h4 : k ≠ "research_group") (h5 : k ≠ "gender") (h6 : k ≠ "age")
    (h7 : k ≠ "weight_kg") (h8 : k ≠ "apoe_a1") (h9 : k ≠ "apoe_a2")
    (h10 : k ≠ "visit_type") (h11 : k ≠ "modality") (h12 : k ≠ "scan_date")
    (h13 : k ≠ "series_id") :
    basicFields p root vAge vW k = none := by
  simp only [basicFields]
  rw [dictSet_ne _ _ _ _ h13, dictSet_ne _ _ _ _ h12, dictSet_ne _ _ _ _ h11,
    dictSet_ne _ _ _ _ h10, extractAPOE_pres _ h8 h9, dictSet_ne _ _ _ _ h7,
    dictSet_ne _ _ _ _ h6, dictSet_ne _ _ _ _ h5, dictSet_ne _ _ _ _ h4,
    dictSet_ne _ _ _ _ h3, dictSet_ne _ _ _ _ h2, dictSet_ne _ _ _ _ h1]
  rfl

theorem extract_processing_info_steps_empty (root : Elem) (d : Dict)
    (h : processingSteps root = []) :
    extract_processing_info root d "processing_steps" = some (Value.vStr "N/A") := by
  simp only [extract_processing_info, h]
  rw [dictSet_same]
  rfl

theorem extract_processing_info_label_missing (root : Elem) (d : Dict)
    (h : findDesc root "processedDataLabel" = none) :
    extract_processing_info root d "processing_label" = d "processing_label" := by
  simp only [extract_processing_info, h]
  exact dictSet_ne _ _ _ _ (by decide)

theorem extractAPOE_nil (d : Dict) : extractAPOE [] d = d := rfl

theorem basicFields_apoe (p : String) (root : Elem) (vAge vW : Value)
    (hEmpty : findAllWithAttr root "subjectInfo" "item" = []) :
    basicFields p root vAge vW "apoe_a1" = none
    ∧ basicFields p root vAge vW "apoe_a2" = none := by
  constructor <;>
    (simp only [basicFields, hEmpty]
     rw [dictSet_ne _ _ _ _ (by decide), dictSet_ne _ _ _ _ (by decide),
       dictSet_ne _ _ _ _ (by decide), dictSet_ne _ _ _ _ (by decide), extractAPOE_nil,
       dictSet_ne _ _ _ _ (by decide), dictSet_ne _ _ _ _ (by decide),
       dictSet_ne _ _ _ _ (by decide), dictSet_ne _ _ _ _ (by decide),
       dictSet_ne _ _ _ _ (by decide), dictSet_ne _ _ _ _ (by decide),
       dictSet_ne _ _ _ _ (by decide)]
     rfl)

/-- C3 counterexample: on a document with none of the target elements, the
built record mixes three different absence representations — the string
"N/A" for `subject_id`, Python `None` for `age`, and a missing key for
`apoe_a1` — so no single uniform absence-marker value exists. -/
theorem absence_marker_nonuniform_cex :
    (parse_xml_metadata "empty.xml" docEmpty).map (fun d => d "subject_id")
        = some (some (Value.vStr "N/A"))
    ∧ (parse_xml_metadata "empty.xml" docEmpty).map (fun d => d "age")
        = some (some Value.vNone)
    ∧ (parse_xml_metadata "empty.xml" docEmpty).map (fun d => d "apoe_a1")
        = some none
    ∧ (some (Value.vStr "N/A") : Option Value) ≠ some Value.vNone
    ∧ (some Value.vNone : Option Value) ≠ none := by
  refine ⟨by decide, by decide, by decide, by decide, by decide⟩


/-- C3 amended: absence is represented per field group rather than by one
uniform marker.  For every successfully built record: absent subject,
visit and acquisition elements yield the string "N/A"; an absent
`subjectAge`/`weightKg` yields Python `None`; absent genotype, clinical
score, imaging-protocol and `processing_label` sources leave their keys out
of the record entirely; and an empty provenance list yields the string
"N/A" in `processing_steps`. -/
theorem absence_markers_per_field_group (p : String) (root : Elem) (d' : Dict)
    (hParse : parse_xml_metadata p root = some d') :
    (findDesc root "subjectIdentifier" = none → d' "subject_id" = some (Value.vStr "N/A"))
    ∧ (findDesc root "researchGroup" = none → d' "research_group" = some (Value.vStr "N/A"))
    ∧ (findDesc root "subjectSex" = none → d' "gender" = some (Value.vStr "N/A"))
    ∧ (findDesc root "visitIdentifier" = none → d' "visit_type" = some (Value.vStr "N/A"))
    ∧ (findDesc root "modality" = none → d' "modality" = some (Value.vStr "N/A"))
    ∧ (findDesc root "dateAcquired" = none → d' "scan_date" = some (Value.vStr "N/A"))
    ∧ (findDesc root "seriesIdentifier" = none → d' "series_id" = some (Value.vStr "N/A"))
    ∧ (findDesc root "subjectAge" = none → d' "age" = some Value.vNone)
    ∧ (findDesc root "weightKg" = none → d' "weight_kg" = some Value.vNone)
    ∧ (findAllWithAttr root "subjectInfo" "item" = [] →
        d' "apoe_a1" = none ∧ d' "apoe_a2" = none)
    ∧ (findAllDesc root "assessment" = [] →
        d' "mmse_score" = none ∧ d' "cdr_score" = none
          ∧ d' "npi_score" = none ∧ d' "faq_score" = none)
    ∧ (protocolTermProtocols root = [] → petProtocols root = [] →
        d' "te_ms" = none
          ∧ d' "tr_ms" = none
          ∧ d' "slice_thickness_mm" = none
          ∧ d' "flip_angle" = none
          ∧ d' "manufacturer" = none
          ∧ d' "device_model" = none
          ∧ d' "field_strength_t" = none
          ∧ d' "radiopharmaceutical" = none
          ∧ d' "num_rows" = none
          ∧ d' "num_columns" = none
          ∧ d' "num_slices" = none
          ∧ d' "pixel_spacing_x" = none
          ∧ d' "pixel_spacing_y" = none
          ∧ d' "reconstruction_method" = none)
    ∧ (findDesc root "processedDataLabel" = none → d' "processing_label" = none)
    ∧ (processingSteps root = [] → d' "processing_steps" = some (Value.vStr "N/A")) := by
  obtain ⟨vAge, vW, d12, d13, hA, hW, hC, hP, rfl⟩ := parse_structure p root d' hParse
  have hchain : ∀ k : String, k ≠ "mmse_score" → k ≠ "cdr_score" → k ≠ "npi_score" →
      k ≠ "faq_score" → k ≠ "te_ms" → k ≠ "tr_ms" → k ≠ "slice_thickness_mm" →
      k ≠ "flip_angle" → k ≠ "manufacturer" → k ≠ "device_model" →
      k ≠ "field_strength_t" → k ≠ "radiopharmaceutical" → k ≠ "num_rows" →
      k ≠ "num_columns" → k ≠ "num_slices" → k ≠ "pixel_spacing_x" →
      k ≠ "pixel_spacing_y" → k ≠ "reconstruction_method" →
      k ≠ "processing_label" → k ≠ "processing_steps" →
      extract_processing_info root d13 k = basicFields p root vAge vW k :=
    fun k k1 k2 k3 k4 k5 k6 k7 k8 k9 k10 k11 k12 k13 k14 k15 k16 k17 k18 k19 k20 => by
      rw [extract_processing_info_pres _ _ _ k19 k20,
        extract_imaging_protocol_pres _ k5 k6 k7 k8 k9 k10 k11 k12 k13 k14 k15 k16 k17
          k18 _ _ _ hP,
        extract_clinical_scores_pres _ k1 k2 k3 k4 _ _ _ hC]
  refine ⟨?_, ?_, ?_, ?_, ?_, ?_, ?_, ?_, ?_, ?_, ?_, ?_, ?_, ?_⟩
  · intro hAbs
    rw [hchain "subject_id" (by decide) (by decide) (by decide) (by decide) (by decide) (by decide) (by decide) (by decide) (by decide) (by decide) (by decide) (by decide) (by decide) (by decide) (by decide) (by decide) (by decide) (by decide) (by decide) (by decide), basicFields_subject_id, hAbs]
    rfl
  · intro hAbs
    rw [hchain "research_group" (by decide) (by decide) (by decide) (by decide) (by decide) (by decide) (by decide) (by decide) (by decide) (by decide) (by decide) (by decide) (by decide) (by decide) (by decide) (by decide) (by decide) (by decide) (by decide) (by decide), basicFields_research_group, hAbs]
    rfl
  · intro hAbs
    rw [hchain "gender" (by decide) (by decide) (by decide) (by decide) (by decide) (by decide) (by decide) (by decide) (by decide) (by decide) (by decide) (by decide) (by decide) (by decide) (by decide) (by decide) (by decide) (by decide) (by decide) (by decide), basicFields_gender, hAbs]
    rfl
  · intro hAbs
    rw [hchain "visit_type" (by decide) (by decide) (by decide) (by decide) (by decide) (by decide) (by decide) (by decide) (by decide) (by decide) (by decide) (by decide) (by decide) (by decide) (by decide) (by decide) (by decide) (by decide) (by decide) (by decide), basicFields_visit_type, hAbs]
    rfl
  · intro hAbs
    rw [hchain "modality" (by decide) (by decide) (by decide) (by decide) (by decide) (by decide) (by decide) (by decide) (by decide) (by decide) (by decide) (by decide) (by decide) (by decide) (by decide) (by decide) (by decide) (by decide) (by decide) (by decide), basicFields_modality, hAbs]
    rfl
  · intro hAbs
    rw [hchain "scan_date" (by decide) (by decide) (by decide) (by decide) (by decide) (by decide) (by decide) (by decide) (by decide) (by decide) (by decide) (by decide) (by decide) (by decide) (by decide) (by decide) (by decide) (by decide) (by decide) (by decide), basicFields_scan_date, hAbs]
    rfl
  · intro hAbs
    rw [hchain "series_id" (by decide) (by decide) (by decide) (by decide) (by decide) (by decide) (by decide) (by decide) (by decide) (by decide) (by decide) (by decide) (by decide) (by decide) (by decide) (by decide) (by decide) (by decide) (by decide) (by decide), basicFields_series_id, hAbs]
    rfl
  · intro hAbs
    rw [hAbs] at hA
    rw [show numOptField none = some Value.vNone from rfl] at hA
    injection hA with hA
    subst hA
    rw [hchain "age" (by decide) (by decide) (by decide) (by decide) (by decide) (by decide) (by decide) (by decide) (by decide) (by decide) (by decide) (by decide) (by decide) (by decide) (by decide) (by decide) (by decide) (by decide) (by decide) (by decide)]
    exact basicFields_age _ _ _ _
  · intro hAbs
    rw [hAbs] at hW
    rw [show numOptField none = some Value.vNone from rfl] at hW
    injection hW with hW
    subst hW
    rw [hchain "weight_kg" (by decide) (by decide) (by decide) (by decide) (by decide) (by decide) (by decide) (by decide) (by decide) (by decide) (by decide) (by decide) (by decide) (by decide) (by decide) (by decide) (by decide) (by decide) (by decide) (by decide)]
    exact basicFields_weight _ _ _ _
  · intro hEmpty
    constructor
    · rw [hchain "apoe_a1" (by decide) (by decide) (by decide) (by decide) (by decide) (by decide) (by decide) (by decide) (by decide) (by decide) (by decide) (by decide) (by decide) (by decide) (by decide) (by decide) (by decide) (by decide) (by decide) (by decide)]
      exact (basicFields_apoe p root vAge vW hEmpty).1
    · rw [hchain "apoe_a2" (by decide) (by decide) (by decide) (by decide) (by decide) (by decide) (by decide) (by decide) (by decide) (by decide) (by decide) (by decide) (by decide) (by decide) (by decide) (by decide) (by decide) (by decide) (by decide) (by decide)]
      exact (basicFields_apoe p root vAge vW hEmpty).2
  · intro hCe
    rw [hCe] at hC
    rw [show extract_clinical_scores [] (basicFields p root vAge vW)
        = some (basicFields p root vAge vW) from rfl] at hC
    injection hC with hC
    refine ⟨?_, ?_, ?_, ?_⟩ <;>
      (rw [extract_processing_info_pres _ _ _ (by decide) (by decide),
        extract_imaging_protocol_pres _ (by decide) (by decide) (by decide) (by decide)
          (by decide) (by decide) (by decide) (by decide) (by decide) (by decide)
          (by decide) (by decide) (by decide) (by decide) _ _ _ hP, ← hC]
       exact basicFields_other _ _ _ _ _ (by decide) (by decide) (by decide) (by decide)
         (by decide) (by decide) (by decide) (by decide) (by decide) (by decide)
         (by decide) (by decide) (by decide))
  · intro hMri hPet
    unfold extract_imaging_protocol at hP
    rw [hMri, hPet] at hP
    rw [show foldSteps mriProtoStep [] d12 = some d12 from rfl, Option.some_bind,
      show foldSteps petProtoStep [] d12 = some d12 from rfl] at hP
    injection hP with hP
    subst hP
    refine ⟨?_, ?_, ?_, ?_, ?_, ?_, ?_, ?_, ?_, ?_, ?_, ?_, ?_, ?_⟩ <;>
      (rw [extract_processing_info_pres _ _ _ (by decide) (by decide),
        extract_clinical_scores_pres _ (by decide) (by decide) (by decide) (by decide)
          _ _ _ hC]
       exact basicFields_other _ _ _ _ _ (by decide) (by decide) (by decide) (by decide)
         (by decide) (by decide) (by decide) (by decide) (by decide) (by decide)
         (by decide) (by decide) (by decide))
  · intro hL
    rw [extract_processing_info_label_missing _ _ hL,
      extract_imaging_protocol_pres _ (by decide) (by decide) (by decide) (by decide)
        (by decide) (by decide) (by decide) (by decide) (by decide) (by decide)
        (by decide) (by decide) (by decide) (by decide) _ _ _ hP,
      extract_clinical_scores_pres _ (by decide) (by decide) (by decide) (by decide)
        _ _ _ hC]
    exact basicFields_other _ _ _ _ _ (by decide) (by decide) (by decide) (by decide)
      (by decide) (by decide) (by decide) (by decide) (by decide) (by decide)
      (by decide) (by decide) (by decide)
  · intro hS
    exact extract_processing_info_steps_empty _ _ hS

/-- Witness for C3 (amended): concrete application of
`absence_markers_per_field_group` to the empty document. -/
theorem absence_markers_per_field_group_witness :
    ∃ d, parse_xml_metadata "empty.xml" docEmpty = some d
      ∧ d "subject_id" = some (Value.vStr "N/A")
      ∧ d "age" = some Value.vNone
      ∧ d "apoe_a1" = none
      ∧ d "mmse_score" = none
      ∧ d "te_ms" = none
      ∧ d "processing_label" = none
      ∧ d "processing_steps" = some (Value.vStr "N/A") := by
  have h := absence_markers_per_field_group "empty.xml" docEmpty
    (extract_processing_info docEmpty
      (basicFields "empty.xml" docEmpty Value.vNone Value.vNone)) rfl
  exact ⟨_, rfl, h.1 rfl, h.2.2.2.2.2.2.2.1 rfl,
    (h.2.2.2.2.2.2.2.2.2.1 rfl).1, (h.2.2.2.2.2.2.2.2.2.2.1 rfl).1,
    (h.2.2.2.2.2.2.2.2.2.2.2.1 rfl rfl).1, h.2.2.2.2.2.2.2.2.2.2.2.2.1 rfl,
    h.2.2.2.2.2.2.2.2.2.2.2.2.2 rfl⟩

theorem parseFloat_30 : parseFloat "30" = some (30 : ℚ) := by
  rw [show parseFloat "30" = some ((digitsToNat ['3', '0'] : ℚ)) from rfl]
  norm_num [digitsToNat, show ('3').toNat = 51 from rfl, show ('0').toNat = 48 from rfl]

/-- An assessment element whose name attribute is `nm`, carrying both an
`MMSCORE` score of "30" and a `CDGLOBAL` score of "1". -/
def assessmentBoth (nm : String) : Elem :=
  Elem.mk "assessment" [("name", nm)] none
    [Elem.mk "assessmentScore" [("attribute", "MMSCORE")] (some "30") [],
     Elem.mk "assessmentScore" [("attribute", "CDGLOBAL")] (some "1") []]

/-- C6 counterexample: an assessment whose name contains both "MMSE" and
"CDR" and which carries both score elements contributes *only* to
`mmse_score`; `cdr_score` is left unset, so the dispatch is not
independent. -/
theorem clinical_dispatch_exclusive_cex :
    strContains "MMSE CDR" "MMSE" = true
    ∧ strContains "MMSE CDR" "CDR" = true
    ∧ (findScore (assessmentBoth "MMSE CDR") "CDGLOBAL").isSome = true
    ∧ (extract_clinical_scores [assessmentBoth "MMSE CDR"] emptyDict).map
        (fun d => d "cdr_score") = some none
    ∧ (extract_clinical_scores [assessmentBoth "MMSE CDR"] emptyDict).map
        (fun d => d "mmse_score") ≠ some none :=
  ⟨by decide, by decide, by decide, by decide, by decide⟩

/-- The amended ordered marker table for the clinical-score dispatch,
written from the amended claim: substring marker, target score field and
score attribute, in evaluation order MMSE, CDR, NPI, FAQ.  To be compared
with `clinicalStep`. -/
def scoreMarkerTable : List (String × String × String) :=
  [("MMSE", "mmse_score", "MMSCORE"),
   ("CDR", "cdr_score", "CDGLOBAL"),
   ("NPI", "npi_score", "NPISCORE"),
   ("FAQ", "faq_score", "FAQTOTAL")]

/-- First-match-wins evaluation of a marker table over one assessment
element: the first marker contained in the name attribute selects the
target field and score attribute; when no marker matches, the record is
returned unchanged. -/
def firstMatchScore : List (String × String × String) → Dict → Elem → Option Dict
  | [], d, _ => some d
  | (marker, field, attr) :: rest, d, a =>
    if strContains ((a.get "name").getD "") marker then
      scoreField d field (findScore a attr)
    else firstMatchScore rest d a

theorem clinicalStep_both_eval :
    clinicalStep emptyDict (assessmentBoth "MMSE CDR")
      = some (dictSet emptyDict "mmse_score" (Value.vFloat 30)) := by
  simp only [clinicalStep]
  rw [show ((assessmentBoth "MMSE CDR").get "name").getD "" = "MMSE CDR" from rfl]
  rw [if_pos (by decide : strContains "MMSE CDR" "MMSE" = true)]
  rw [show findScore (assessmentBoth "MMSE CDR") "MMSCORE"
      = some (Elem.mk "assessmentScore" [("attribute", "MMSCORE")] (some "30") [])
      from rfl]
  show (parseFloat "30").map (fun q => dictSet emptyDict "mmse_score" (Value.vFloat q))
    = some (dictSet emptyDict "mmse_score" (Value.vFloat 30))
  rw [parseFloat_30]
  rfl

/-- C6 amended: for every assessment element, the clinical-score dispatch
equals first-match-wins evaluation of the ordered marker table MMSE, CDR,
NPI, FAQ (and the whole assessment loop equals folding that evaluation),
so the chain is mutually exclusive in exactly that order; behaviorally,
whichever marker fires first leaves every other field of the record
untouched — MMSE beats CDR/NPI/FAQ, CDR (without MMSE) beats NPI/FAQ,
NPI (without MMSE/CDR) beats FAQ — and an assessment containing no marker
leaves the record unchanged. -/
theorem clinical_dispatch_first_match :
    (∀ (d : Dict) (a : Elem),
      clinicalStep d a = firstMatchScore scoreMarkerTable d a)
    ∧ (∀ (l : List Elem) (d : Dict),
      extract_clinical_scores l d
        = foldSteps (fun d a => firstMatchScore scoreMarkerTable d a) l d)
    ∧ (∀ (d : Dict) (a : Elem) (d' : Dict),
      strContains ((a.get "name").getD "") "MMSE" = true →
      clinicalStep d a = some d' →
      ∀ k, k ≠ "mmse_score" → d' k = d k)
    ∧ (∀ (d : Dict) (a : Elem) (d' : Dict),
      strContains ((a.get "name").getD "") "MMSE" = false →
      strContains ((a.get "name").getD "") "CDR" = true →
      clinicalStep d a = some d' →
      ∀ k, k ≠ "cdr_score" → d' k = d k)
    ∧ (∀ (d : Dict) (a : Elem) (d' : Dict),
      strContains ((a.get "name").getD "") "MMSE" = false →
      strContains ((a.get "name").getD "") "CDR" = false →
      strContains ((a.get "name").getD "") "NPI" = true →
      clinicalStep d a = some d' →
      ∀ k, k ≠ "npi_score" → d' k = d k)
    ∧ (∀ (d : Dict) (a : Elem) (d' : Dict),
      strContains ((a.get "name").getD "") "MMSE" = false →
      strContains ((a.get "name").getD "") "CDR" = false →
      strContains ((a.get "name").getD "") "NPI" = false →
      strContains ((a.get "name").getD "") "FAQ" = true →
      clinicalStep d a = some d' →
      ∀ k, k ≠ "faq_score" → d' k = d k)
    ∧ (∀ (d : Dict) (a : Elem),
      strContains ((a.get "name").getD "") "MMSE" = false →
      strContains ((a.get "name").getD "") "CDR" = false →
      strContains ((a.get "name").getD "") "NPI" = false →
      strContains ((a.get "name").getD "") "FAQ" = false →
      clinicalStep d a = some d) := by
  have htab : ∀ (d : Dict) (a : Elem),
      clinicalStep d a = firstMatchScore scoreMarkerTable d a := by
    intro d a
    simp only [clinicalStep, firstMatchScore, scoreMarkerTable]
  refine ⟨htab, ?_, ?_, ?_, ?_, ?_, ?_⟩
  · intro l
    induction l with
    | nil => intro d; rfl
    | cons a rest ih =>
      intro d
      show (clinicalStep d a).bind (extract_clinical_scores rest)
        = (firstMatchScore scoreMarkerTable d a).bind
            (foldSteps (fun d a => firstMatchScore scoreMarkerTable d a) rest)
      rw [htab d a]
      cases h : firstMatchScore scoreMarkerTable d a with
      | none => rfl
      | some dm => rw [Option.some_bind, Option.some_bind]; exact ih dm
  · intro d a d' hM hs k hk
    have hred : clinicalStep d a = scoreField d "mmse_score" (findScore a "MMSCORE") := by
      simp only [clinicalStep]
      rw [if_pos hM]
    rw [hred] at hs
    exact scoreField_pres _ _ _ _ hs k hk
  · intro d a d' hM hC hs k hk
    have hred : clinicalStep d a = scoreField d "cdr_score" (findScore a "CDGLOBAL") := by
      simp only [clinicalStep]
      rw [if_neg (by simp [hM]), if_pos hC]
    rw [hred] at hs
    exact scoreField_pres _ _ _ _ hs k hk
  · intro d a d' hM hC hN hs k hk
    have hred : clinicalStep d a = scoreField d "npi_score" (findScore a "NPISCORE") := by
      simp only [clinicalStep]
      rw [if_neg (by simp [hM]), if_neg (by simp [hC]), if_pos hN]
    rw [hred] at hs
    exact scoreField_pres _ _ _ _ hs k hk
  · intro d a d' hM hC hN hF hs k hk
    have hred : clinicalStep d a = scoreField d "faq_score" (findScore a "FAQTOTAL") := by
      simp only [clinicalStep]
      rw [if_neg (by simp [hM]), if_neg (by simp [hC]), if_neg (by simp [hN]), if_pos hF]
    rw [hred] at hs
    exact scoreField_pres _ _ _ _ hs k hk
  · intro d a hM hC hN hF
    simp only [clinicalStep]
    rw [if_neg (by simp [hM]), if_neg (by simp [hC]), if_neg (by simp [hN]),
      if_neg (by simp [hF])]

/-- Witness for C6 (amended): concrete application of
`clinical_dispatch_first_match` to the assessment named "MMSE CDR". -/
theorem clinical_dispatch_first_match_witness :
    clinicalStep emptyDict (assessmentBoth "MMSE CDR")
      = firstMatchScore scoreMarkerTable emptyDict (assessmentBoth "MMSE CDR")
    ∧ (dictSet emptyDict "mmse_score" (Value.vFloat 30)) "cdr_score" = none :=
  ⟨clinical_dispatch_first_match.1 emptyDict (assessmentBoth "MMSE CDR"),
   (clinical_dispatch_first_match.2.2.1 emptyDict (assessmentBoth "MMSE CDR")
     (dictSet emptyDict "mmse_score" (Value.vFloat 30)) (by decide)
     clinicalStep_both_eval "cdr_score" (by decide)).trans rfl⟩

/-- The predicate selecting the `apoe_a1` branch of the APOE loop: the
`item` attribute contains "APOE A1". -/
def itemHasA1 (e : Elem) : Bool :=
  strContains ((e.get "item").getD "") "APOE A1"

/-- The predicate selecting the `apoe_a2` branch of the APOE loop: the
`item` attribute contains "APOE A2" but, because of the `elif`, not
"APOE A1". -/
def itemHasA2only (e : Elem) : Bool :=
  !itemHasA1 e && strContains ((e.get "item").getD "") "APOE A2"

/-- The last element of `l` (in document order) satisfying `p`. -/
def lastMatch (p : Elem → Bool) : List Elem → Option Elem
  | [] => none
  | e :: rest =>
    match lastMatch p rest with
    | some x => some x
    | none => if p e then some e else none

/-- `<subjectInfo item="APOE A2">3</subjectInfo>`. -/
def apoeEntry1 : Elem := Elem.mk "subjectInfo" [("item", "APOE A2")] (some "3") []

/-- `<subjectInfo item="APOE A1 APOE A2">4</subjectInfo>`. -/
def apoeEntry2 : Elem := Elem.mk "subjectInfo" [("item", "APOE A1 APOE A2")] (some "4") []

/-- A document with two `subjectInfo[@item]` entries whose items both
contain "APOE A2", the later one also containing "APOE A1". -/
def docApoe : Elem := Elem.mk "idaxml" [] none [apoeEntry1, apoeEntry2]

/-- C7 counterexample: in `docApoe` both entries' items contain "APOE A2"
and the last matching entry has text "4", yet the built record's `apoe_a2`
is "3": the `elif` sends the later entry to the `apoe_a1` branch, so
`apoe_a2` is not the text of the last entry whose item contains
"APOE A2". -/
theorem apoe_overlap_cex :
    strContains "APOE A2" "APOE A2" = true
    ∧ strContains "APOE A1 APOE A2" "APOE A2" = true
    ∧ ((findAllWithAttr docApoe "subjectInfo" "item").map (fun e => e.text))
        = [some "3", some "4"]
    ∧ (parse_xml_metadata "x.xml" docApoe).map (fun d => d "apoe_a2")
        = some (some (Value.vStr "3"))
    ∧ (parse_xml_metadata "x.xml" docApoe).map (fun d => d "apoe_a2")
        ≠ some (some (Value.vStr "4")) :=
  ⟨by decide, by decide, by decide, by decide, by decide⟩

/-- C7 amended: the APOE loop has overwrite (last-one-wins) semantics per
branch, with the branches made mutually exclusive by the `elif`: after the
loop, `apoe_a1` holds the text of the last entry whose item contains
"APOE A1", and `apoe_a2` the text of the last entry whose item contains
"APOE A2" but not "APOE A1"; fields with no matching entry keep their
previous value. -/
theorem apoe_last_match_wins : ∀ (l : List Elem) (d : Dict),
    (extractAPOE l d) "apoe_a1"
      = (match lastMatch itemHasA1 l with
         | some e => some (textValue e)
         | none => d "apoe_a1")
    ∧ (extractAPOE l d) "apoe_a2"
      = (match lastMatch itemHasA2only l with
         | some e => some (textValue e)
         | none => d "apoe_a2") := by
  intro l
  induction l with
  | nil => exact fun d => ⟨rfl, rfl⟩
  | cons e rest ih =>
    intro d
    simp only [extractAPOE]
    split_ifs with hA1 hA2
    · constructor
      · rw [(ih _).1, lastMatch]
        cases hrest : lastMatch itemHasA1 rest with
        | some x => rfl
        | none => simp [itemHasA1, hA1, dictSet_same]
      · rw [(ih _).2, lastMatch]
        cases hrest : lastMatch itemHasA2only rest with
        | some x => rfl
        | none =>
          simp only [hrest, itemHasA2only, itemHasA1, hA1, Bool.not_true,
            Bool.false_and, if_false, Bool.false_eq_true]
          exact dictSet_ne _ _ _ _ (by decide)
    · constructor
      · rw [(ih _).1, lastMatch]
        cases hrest : lastMatch itemHasA1 rest with
        | some x => rfl
        | none =>
          simp only [hrest, itemHasA1, hA1, if_false, Bool.false_eq_true]
          exact dictSet_ne _ _ _ _ (by decide)
      · rw [(ih _).2, lastMatch]
        cases hrest : lastMatch itemHasA2only rest with
        | some x => rfl
        | none => simp [itemHasA2only, itemHasA1, hA1, hA2, dictSet_same]
    · constructor
      · rw [(ih _).1, lastMatch]
        cases hrest : lastMatch itemHasA1 rest with
        | some x => rfl
        | none => simp [itemHasA1, hA1]
      · rw [(ih _).2, lastMatch]
        cases hrest : lastMatch itemHasA2only rest with
        | some x => rfl
        | none => simp [itemHasA2only, itemHasA1, hA1, hA2]

/-- A `protocol` element with the given `term` attribute and text. -/
def protoEl (term : String) (t : Option String) : Elem :=
  Elem.mk "protocol" [("term", term)] t []

/-- A document whose MRI and PET protocol entries all carry empty text
(either no text node or the empty string). -/
def docProtoEmpty : Elem :=
  Elem.mk "idaxml" [] none
    [Elem.mk "protocolTerm" [] none
      [protoEl "TE" none, protoEl "TR" (some ""), protoEl "Slice Thickness" none,
       protoEl "Flip Angle" (some ""), protoEl "Field Strength" none],
     Elem.mk "imagingProtocol" [] none
      [protoEl "Number of Rows" none, protoEl "Number of Columns" (some ""),
       protoEl "Number of Slices" none, protoEl "Pixel Spacing X" (some ""),
       protoEl "Pixel Spacing Y" none]]

/-- A document whose `subjectAge` element is present but has no text. -/
def docAgeEmpty : Elem := Elem.mk "idaxml" [] none [Elem.mk "subjectAge" [] none []]

/-- A document whose `weightKg` element is present with empty-string text. -/
def docWeightEmpty : Elem :=
  Elem.mk "idaxml" [] none [Elem.mk "weightKg" [] (some "") []]

/-- C9: a present imaging-protocol term with empty text (no text node or
`""`) stores the `None` marker in its numeric field and the record build
still succeeds — for the MRI terms TE/TR/Slice Thickness/Flip Angle/Field
Strength and the PET terms Number of Rows/Columns/Slices and Pixel Spacing
X/Y alike — whereas an empty `subjectAge` or `weightKg` aborts the whole
record. -/
theorem protocol_empty_text_tolerated :
    (parse_xml_metadata "mri.xml" docProtoEmpty).isSome = true
    ∧ (parse_xml_metadata "mri.xml" docProtoEmpty).map (fun d => d "te_ms")
        = some (some Value.vNone)
    ∧ (parse_xml_metadata "mri.xml" docProtoEmpty).map (fun d => d "tr_ms")
        = some (some Value.vNone)
    ∧ (parse_xml_metadata "mri.xml" docProtoEmpty).map (fun d => d "slice_thickness_mm")
        = some (some Value.vNone)
    ∧ (parse_xml_metadata "mri.xml" docProtoEmpty).map (fun d => d "flip_angle")
        = some (some Value.vNone)
    ∧ (parse_xml_metadata "mri.xml" docProtoEmpty).map (fun d => d "field_strength_t")
        = some (some Value.vNone)
    ∧ (parse_xml_metadata "mri.xml" docProtoEmpty).map (fun d => d "num_rows")
        = some (some Value.vNone)
    ∧ (parse_xml_metadata "mri.xml" docProtoEmpty).map (fun d => d "num_columns")
        = some (some Value.vNone)
    ∧ (parse_xml_metadata "mri.xml" docProtoEmpty).map (fun d => d "num_slices")
        = some (some Value.vNone)
    ∧ (parse_xml_metadata "mri.xml" docProtoEmpty).map (fun d => d "pixel_spacing_x")
        = some (some Value.vNone)
    ∧ (parse_xml_metadata "mri.xml" docProtoEmpty).map (fun d => d "pixel_spacing_y")
        = some (some Value.vNone)
    ∧ parse_xml_metadata "a.xml" docAgeEmpty = none
    ∧ parse_xml_metadata "a.xml" docWeightEmpty = none := by
  refine ⟨by decide, by decide, by decide, by decide, by decide, by decide, by decide,
    by decide, by decide, by decide, by decide, rfl, rfl⟩

theorem bumpCount_same (tc : String → ℕ) (st : String) :
    bumpCount tc st st = tc st + 1 := by simp [bumpCount]

theorem bumpCount_ne (tc : String → ℕ) (st x : String) (h : x ≠ st) :
    bumpCount tc st x = tc x := by simp [bumpCount, h]

theorem appendData_same (data : ScanData) (st : String) (md : Dict) :
    appendData data st md st = data st ++ [md] := by simp [appendData]

theorem appendData_ne (data : ScanData) (st x : String) (md : Dict) (h : x ≠ st) :
    appendData data st md x = data x := by simp [appendData, h]

/-- Per-folder accumulation count when every file in the folder is of one
scan type and parseable: exactly `min (m - tc T) fs.length` records are
added, provided the run ceiling cannot be hit inside this folder. -/
theorem processFolderFiles_single_type (m : ℕ) (T : String) :
    ∀ (fs : List XFile) (tc : String → ℕ) (pc : ℕ) (data : ScanData),
    (∀ f ∈ fs, extract_scan_type f.path = T ∧ (parseFile f).isSome = true) →
    pc + (m - tc T) < m * 10 →
    ((processFolderFiles (some m) fs tc pc data).2.2 T).length
      = (data T).length + min (m - tc T) fs.length := by
  intro fs
  induction fs with
  | nil => intro tc pc data _ _; simp [processFolderFiles]
  | cons f rest ih =>
    intro tc pc data hall hpc
    obtain ⟨hT, hparse⟩ := hall f (List.mem_cons_self f rest)
    have hrest := fun g hg => hall g (List.mem_cons_of_mem f hg)
    rw [processFolderFiles]
    have hceil : ceilingHit (some m) pc = false := by
      simp only [ceilingHit, decide_eq_false_iff_not]
      omega
    rw [hceil, if_neg (by simp), hT]
    by_cases hcap : m ≤ tc T
    · rw [if_pos (by simp [capReached, hcap])]
      rw [ih tc pc data hrest hpc]
      have hz : m - tc T = 0 := by omega
      simp [hz]
    · rw [if_neg (by simp [capReached]; omega)]
      obtain ⟨md, hmd⟩ := Option.isSome_iff_exists.mp hparse
      rw [hmd]
      rw [ih (bumpCount tc T) (pc + 1) (appendData data T md) hrest
        (by rw [bumpCount_same]; omega)]
      rw [appendData_same, bumpCount_same]
      have hstep : m - tc T = (m - (tc T + 1)) + 1 := by omega
      simp only [List.length_cons, List.length_append, List.length_nil]
      rw [hstep, Nat.add_min_add_right]
      omega

/-- C4 amended: with the per-type cap set to 5 and 12 parseable files of a
single scan type all in one processed folder, exactly 5 records of that
type appear in the run's buckets — the per-type counter caps accumulation
at the cap value within a folder. -/
theorem per_type_cap_single_folder (T : String) (fs : List XFile)
    (hall : ∀ f ∈ fs, extract_scan_type f.path = T ∧ (parseFile f).isSome = true)
    (hlen : fs.length = 12) :
    ((process_metadata_folders (some 5) [fs]).2 T).length = 5 := by
  show ((processFolderFiles (some 5) fs (fun _ => 0) 0 emptyScanData).2.2 T).length = 5
  rw [processFolderFiles_single_type 5 T fs (fun _ => 0) 0 emptyScanData hall
    (by show 0 + (5 - 0) < 5 * 10; omega)]
  rw [hlen]
  rfl

/-- Witness for C4 (amended): 12 parseable PET_FDG files in one folder,
cap 5. -/
theorem per_type_cap_single_folder_witness :
    ((process_metadata_folders (some 5) [List.replicate 12 fileGood]).2
      "PET_FDG").length = 5 :=
  per_type_cap_single_folder "PET_FDG" (List.replicate 12 fileGood)
    (by decide) (by decide)

/-- A folder of six parseable PET_FDG files. -/
def folder6 : List XFile := List.replicate 6 fileGood

/-- C4 counterexample: 12 parseable files of scan type PET_FDG available
across the processed folders (two folders of six), cap 5 — but 10 records
of that type appear in the final buckets, not 5, because the per-type
counter restarts at each folder. -/
theorem per_type_cap_across_folders_cex :
    folder6.length + folder6.length = 12
    ∧ ((folder6 ++ folder6).map (fun f => extract_scan_type f.path))
        = List.replicate 12 "PET_FDG"
    ∧ ((folder6 ++ folder6).map (fun f => (parseFile f).isSome))
        = List.replicate 12 true
    ∧ ((process_metadata_folders (some 5) [folder6, folder6]).2 "PET_FDG").length = 10
    ∧ (10 : ℕ) ≠ 5 :=
  ⟨by decide, by decide, by decide, by decide, by decide⟩

/-- Run of the per-folder file loop never grows one scan type's bucket by
more than the cap, whatever the starting per-type counter. -/
theorem processFolderFiles_bound (m : ℕ) (T : String) :
    ∀ (fs : List XFile) (tc : String → ℕ) (pc : ℕ) (data : ScanData),
    ((processFolderFiles (some m) fs tc pc data).2.2 T).length + min (tc T) m
      ≤ (data T).length + m := by
  intro fs
  induction fs with
  | nil =>
    intro tc pc data
    simp only [processFolderFiles]
    omega
  | cons f rest ih =>
    intro tc pc data
    rw [processFolderFiles]
    cases hceil : ceilingHit (some m) pc with
    | true =>
      rw [if_pos (by simp [hceil])]
      show (data T).length + min (tc T) m ≤ (data T).length + m
      omega
    | false =>
      rw [if_neg (by simp [hceil])]
      cases hcap : capReached (some m) (tc (extract_scan_type f.path)) with
      | true =>
        rw [if_pos (by simp [hcap])]
        exact ih tc pc data
      | false =>
        rw [if_neg (by simp [hcap])]
        cases hmd : parseFile f with
        | none => exact ih tc pc data
        | some md =>
          have hcap' : tc (extract_scan_type f.path) < m := by
            simpa [capReached, Nat.not_le] using hcap
          show ((processFolderFiles (some m) rest
              (bumpCount tc (extract_scan_type f.path)) (pc + 1)
              (appendData data (extract_scan_type f.path) md)).2.2 T).length
              + min (tc T) m
            ≤ (data T).length + m
          by_cases hst : T = extract_scan_type f.path
          · rw [← hst] at hcap' ⊢
            have h := ih (bumpCount tc T) (pc + 1) (appendData data T md)
            rw [bumpCount_same, appendData_same] at h
            simp only [List.length_append, List.length_cons, List.length_nil] at h
            omega
          · have h := ih (bumpCount tc (extract_scan_type f.path)) (pc + 1)
              (appendData data (extract_scan_type f.path) md)
            rw [bumpCount_ne _ _ _ hst, appendData_ne _ _ _ _ hst] at h
            exact h

/-- Across folders, each folder restarts its per-type counter at zero, so
the bucket of one scan type grows by at most the cap per folder. -/
theorem processFoldersAux_bound (m : ℕ) (T : String) :
    ∀ (folders : List (List XFile)) (pc : ℕ) (data : ScanData),
    ((processFoldersAux (some m) folders pc data).2 T).length
      ≤ (data T).length + folders.length * m := by
  intro folders
  induction folders with
  | nil => intro pc data; simp [processFoldersAux]
  | cons folder rest ih =>
    intro pc data
    rw [processFoldersAux]
    have h1 := processFolderFiles_bound m T folder (fun _ => 0) pc data
    simp only [Nat.min_eq_left (Nat.zero_le m), Nat.add_zero] at h1
    have h2 := ih (processFolderFiles (some m) folder (fun _ => 0) pc data).2.1
      (processFolderFiles (some m) folder (fun _ => 0) pc data).2.2
    calc ((processFoldersAux (some m) rest
            (processFolderFiles (some m) folder (fun _ => 0) pc data).2.1
            (processFolderFiles (some m) folder (fun _ => 0) pc data).2.2).2 T).length
        ≤ ((processFolderFiles (some m) folder (fun _ => 0) pc data).2.2 T).length
            + rest.length * m := h2
      _ ≤ (data T).length + m + rest.length * m := by omega
      _ = (data T).length + (folder :: rest).length * m := by
            simp [List.length_cons]
            ring

/-- C10: because `type_counts` is re-created at the start of each folder,
the run-wide invariant is a per-folder cap: with `max_files_per_type = m`,
a scan type's bucket holds at most `n·m` records after processing `n`
folders — and the bound is attained: two folders of six parseable PET_FDG
files with cap 5 yield exactly 10 = 2·5 records. -/
theorem per_folder_cap_invariant :
    (∀ (m : ℕ) (T : String) (folders : List (List XFile)),
      ((process_metadata_folders (some m) folders).2 T).length ≤ folders.length * m)
    ∧ ((process_metadata_folders (some 5) [folder6, folder6]).2 "PET_FDG").length
        = 2 * 5 := by
  constructor
  · intro m T folders
    have h := processFoldersAux_bound m T folders 0 emptyScanData
    simpa [emptyScanData] using h
  · decide
